import Mathlib

/-! Shallow embedding of the Commax wallpad packet protocol engine of
`CommaxWallpadAddon/apps/main.py`: the schema compiler
(`load_devices_and_packets_structures`), the frame codec
(`make_climate_command`, `process_ha_command`, `process_elfin_data`), the
expected-response predictor (`generate_expected_state_packet`), the dispatch
queue (`process_queue`) and the gateway health monitor
(`process_queue_and_monitor`).

Conventions of the embedding:
* a byte is a `Nat` (the code works on `bytearray` elements, all < 256;
  assignments that would overflow a byte raise and are modelled as failures);
* a frame — a 16-character hex string in the code — is modelled as its byte
  list `List Nat`; the code's conversions `bytes.fromhex` /
  `bytes.hex().upper()` are the two directions of this identification;
* yaml mappings (`structure`, `values`, the device dictionary) are
  association lists in document order, positions as `Nat`;
* fallible code (`KeyError`, `IndexError`, `ValueError`, caught exceptions)
  returns `Option` / `Except`.
-/

/-- Value of a hexadecimal digit character, as accepted by Python `int(s, 16)`. -/
def hexDigitVal (c : Char) : Option Nat :=
  if '0' ≤ c ∧ c ≤ '9' then some (c.toNat - 48)
  else if 'a' ≤ c ∧ c ≤ 'f' then some (c.toNat - 87)
  else if 'A' ≤ c ∧ c ≤ 'F' then some (c.toNat - 55)
  else none

/-- Value of a decimal digit character, as accepted by Python `int(s)`. -/
def decDigitVal (c : Char) : Option Nat :=
  if '0' ≤ c ∧ c ≤ '9' then some (c.toNat - 48) else none

/-- Python `int(s, 16)`: parse a hex string, `none` on an empty string or a
non-hex character (a raised `ValueError` in the code). -/
def parseHex (s : String) : Option Nat :=
  match s.data with
  | [] => none
  | ds => ds.foldl (fun acc c => acc.bind fun a => (hexDigitVal c).map fun d => 16 * a + d) (some 0)

/-- Python `int(s)` (decimal): `none` models the raised `ValueError`. -/
def pyIntDec (s : String) : Option Nat :=
  match s.data with
  | [] => none
  | ds => ds.foldl (fun acc c => acc.bind fun a => (decDigitVal c).map fun d => 10 * a + d) (some 0)

/-- Hex digit character, uppercase (`0`-`9`, `A`-`F`). -/
def hexDigitCharUpper (n : Nat) : Char :=
  if n < 10 then Char.ofNat (48 + n) else Char.ofNat (55 + n)

/-- Hex digit character, lowercase (`0`-`9`, `a`-`f`). -/
def hexDigitCharLower (n : Nat) : Char :=
  if n < 10 then Char.ofNat (48 + n) else Char.ofNat (87 + n)

/-- Modelled from the spec: `utils.byte_to_hex_str` is imported by
`main.py` but `utils.py` is not among the sources. Every use site compares
its result against `.upper()`-normalised schema values or `hex().upper()`
frame text, so it is the two-character uppercase hex representation of a
byte (the high nibble is reduced mod 16; the code only ever passes bytes). -/
def byte_to_hex_str (b : Nat) : String :=
  String.mk [hexDigitCharUpper (b / 16 % 16), hexDigitCharUpper (b % 16)]

/-- Python `format(b, '02x')` for a byte: two lowercase hex characters. -/
def formatHex02x (b : Nat) : String :=
  String.mk [hexDigitCharLower (b / 16 % 16), hexDigitCharLower (b % 16)]

/-- Python `str.upper()` (ASCII data here). -/
def strUpper (s : String) : String := String.mk (s.data.map Char.toUpper)

/-- Modelled from the spec: `utils.pad` is imported by `main.py` but
`utils.py` is not among the sources; it formats a temperature for a state
payload. The spec leaves payload text out of scope, so any injective decimal
rendering fits; we zero-pad to two digits. -/
def pad (n : Nat) : String :=
  if n < 10 then "0" ++ Nat.repr n else Nat.repr n

/-- Association-list lookup, first binding wins (Python `dict` access /
`dict.get`). -/
def assocLookup [DecidableEq κ] (k : κ) : List (κ × α) → Option α
  | [] => none
  | (k', v) :: rest => if k' = k then some v else assocLookup k rest

/-- List write `l[i] = a`: `none` models the raised `IndexError` when `i` is
out of range. -/
def setAt (l : List α) (i : Nat) (a : α) : Option (List α) :=
  if i < l.length then some (l.set i a) else none

/-- `bytearray` write `packet[i] = v`: additionally raises (`ValueError`)
when the value does not fit a byte. -/
def setByte (l : List Nat) (i : Nat) (v : Nat) : Option (List Nat) :=
  if v < 256 then setAt l i v else none

/-- Insertion of a value into an ascending-sorted `Nat` list (stable). -/
def insertNat (x : Nat) : List Nat → List Nat
  | [] => [x]
  | y :: ys => if x ≤ y then x :: y :: ys else y :: insertNat x ys

/-- Python `sorted` on a `Nat` list. -/
def sortNats (l : List Nat) : List Nat := l.foldr insertNat []

/-- One byte position of a packet `structure` table: a field name and an
optional symbolic `values` mapping (`FieldDescriptor` of the spec). -/
structure FieldDescriptor where
  name : String
  values : List (String × String)
  deriving DecidableEq, Repr

/-- One packet kind of a device: `header` (two-hex-char string) and the
`structure` table, position → field descriptor, in document order. -/
structure PacketSchema where
  header : String
  struct : List (Nat × FieldDescriptor)
  deriving DecidableEq, Repr

/-- One device type of `DEVICE_STRUCTURE`: its `type` tag and the `command` /
`state` packet kinds (absent keys raise `KeyError` where accessed). -/
structure DeviceSchema where
  type_ : String
  command : Option PacketSchema
  state : Option PacketSchema
  deriving DecidableEq, Repr

/-- The loaded `DEVICE_STRUCTURE`: device name → device schema, in document
order. -/
abbrev DeviceStructure := List (String × DeviceSchema)

/-- Schema Compiler loop body of `load_devices_and_packets_structures`
(lines 114-123): scan the `structure` table in order; record
`name → position` for every non-"empty" name not seen before; on a repeat,
log an error naming both positions (collected in the second component) and
keep the first-seen mapping. -/
def buildFieldPositionsGo (acc : List (String × Nat)) (errs : List (String × Nat × Nat)) :
    List (Nat × FieldDescriptor) → List (String × Nat) × List (String × Nat × Nat)
  | [] => (acc, errs)
  | (pos, f) :: rest =>
    if f.name = "empty" then buildFieldPositionsGo acc errs rest
    else
      match assocLookup f.name acc with
      | some p0 => buildFieldPositionsGo acc (errs ++ [(f.name, p0, pos)]) rest
      | none => buildFieldPositionsGo (acc ++ [(f.name, pos)]) errs rest

/-- `fieldPositions` computation plus the duplicate-name errors it logs. -/
def buildFieldPositions (st : List (Nat × FieldDescriptor)) :
    List (String × Nat) × List (String × Nat × Nat) :=
  buildFieldPositionsGo [] [] st

/-- The `fieldPositions` table stored on each packet kind at load time. -/
def fieldPositions (st : List (Nat × FieldDescriptor)) : List (String × Nat) :=
  (buildFieldPositions st).1

/-- Modelled from the spec: `utils.checksum` is imported by `main.py` but
`utils.py` is not among the sources. The spec's contract: a deterministic
pure normalization of a frame's non-checksum bytes, with
`is_valid(frame) ⇔ checksum(frame) = frame`, appending the checksum byte to
a 7-byte command body; the protocol's correctness does not depend on the
particular algorithm, so we fix the classic sum-of-first-seven-bytes mod 256. -/
def checksum (f : List Nat) : List Nat :=
  f.take 7 ++ [(f.take 7).sum % 256]

/-- Python `int(str(t), 16)` (line 556): the decimal digit string of `t`
re-read as hex — the thermostat's literal decimal-in-hex temperature byte. -/
def decAsHexGo : Nat → Nat → Nat
  | 0, n => n
  | fuel + 1, n => if n < 10 then n else decAsHexGo fuel (n / 10) * 16 + n % 10

/-- Entry point of `decAsHexGo`; the fuel `n` covers all of `n`'s digits. -/
def decAsHex (n : Nat) : Nat := decAsHexGo n n

/-- Symbolic value of the field at position `pos` of a `structure` table,
parsed as a byte: `int(structure[pos]["values"][sym], 16)`, `none` on any
`KeyError` / `ValueError`. -/
def structValueByte (st : List (Nat × FieldDescriptor)) (pos : Nat) (sym : String) :
    Option Nat :=
  (assocLookup pos st).bind fun f => (assocLookup sym f.values).bind parseHex

/-- Command-type/value bytes of `make_climate_command` (lines 548-559): the
opcode written at `commandType` and the value written at `value`, per
command-type string; `none` models the logged unknown type and raised
`KeyError`. -/
def climateOpcodeAndValue (st : List (Nat × FieldDescriptor))
    (command_type_pos value_pos target_temp : Nat) (command_type : String) :
    Option (Nat × Nat) :=
  if command_type = "commandOFF" then
    (structValueByte st command_type_pos "power").bind fun p =>
      (structValueByte st value_pos "off").map fun v => (p, v)
  else if command_type = "commandON" then
    (structValueByte st command_type_pos "power").bind fun p =>
      (structValueByte st value_pos "on").map fun v => (p, v)
  else if command_type = "commandCHANGE" then
    (structValueByte st command_type_pos "change").map fun c => (c, decAsHex target_temp)
  else none

/-- `make_climate_command` (lines 506-574): build a 7-byte thermostat command
packet from the schema and append the checksum; any missing key, unknown
command type or byte overflow returns `None`. -/
def make_climate_command (devs : DeviceStructure) (device_id target_temp : Nat)
    (command_type : String) : Option (List Nat) :=
  (assocLookup "Thermo" devs).bind fun thermo =>
  thermo.command.bind fun command =>
  (parseHex command.header).bind fun hb =>
  (setByte (List.replicate 7 0) 0 hb).bind fun packet =>
  (assocLookup "deviceId" (fieldPositions command.struct)).bind fun device_id_pos =>
  (setByte packet device_id_pos device_id).bind fun packet =>
  (assocLookup "commandType" (fieldPositions command.struct)).bind fun command_type_pos =>
  (assocLookup "value" (fieldPositions command.struct)).bind fun value_pos =>
  (climateOpcodeAndValue command.struct command_type_pos value_pos target_temp
      command_type).bind fun ov =>
  (setByte packet command_type_pos ov.1).bind fun packet =>
  (setByte packet value_pos ov.2).map fun packet =>
  checksum packet

/-- The Expected-Response Predictor's output (`ExpectedStatePacket`
`TypedDict`): required byte positions and, per position of the 7-entry
table, the acceptable hex-string values (empty list = unconstrained). -/
structure ExpectedStatePacket where
  required_bytes : List Nat
  possible_values : List (List String)
  deriving DecidableEq, Repr

/-- Header scan of `generate_expected_state_packet` (lines 603-607): first
device whose `command.header` byte equals the frame's byte 0; a device
without a `command` key or with an unparsable header raises (`none`). -/
def findDeviceByCommandHeader (b : Nat) : DeviceStructure → Option (String × DeviceSchema)
  | [] => none
  | (name, d) :: rest => do
    let c ← d.command
    let h ← parseHex c.header
    if b = h then return (name, d) else findDeviceByCommandHeader b rest

/-- Symbolic value string of the field at position `pos` of a `structure`
table: `structure[pos]["values"][sym]`, `none` on `KeyError`. -/
def structValueStr (st : List (Nat × FieldDescriptor)) (pos : Nat) (sym : String) :
    Option String :=
  (assocLookup pos st).bind fun f => assocLookup sym f.values

/-- Thermostat branch of `generate_expected_state_packet` (lines 630-657):
a "power" opcode requires the state `power` position — acceptable values
`{off}` when the command value is the off-code, else `{idle, heating}`; a
"change" opcode requires the state `targetTemp` position with the literal
temperature byte; any other opcode adds no requirement. -/
def gespThermo (cmdP stP : PacketSchema) (cfp sfp : List (String × Nat))
    (cmd : List Nat) (required : List Nat) (pv : List (List String)) :
    Option ExpectedStatePacket :=
  let command_type_pos := (assocLookup "commandType" cfp).getD 2
  (cmd.get? command_type_pos).bind fun command_type =>
  let value_pos := (assocLookup "value" cfp).getD 3
  let power_pos := (assocLookup "power" sfp).getD 1
  (structValueByte cmdP.struct command_type_pos "power").bind fun powOp =>
  if command_type = powOp then
    (cmd.get? value_pos).bind fun command_value =>
    (structValueByte cmdP.struct value_pos "off").bind fun offB =>
    if command_value = offB then
      (structValueStr stP.struct power_pos "off").bind fun offS =>
      (setAt pv power_pos [offS]).map fun pv =>
      ⟨sortNats (required ++ [power_pos]), pv⟩
    else
      (structValueStr stP.struct power_pos "idle").bind fun idleS =>
      (structValueStr stP.struct power_pos "heating").bind fun heatS =>
      (setAt pv power_pos [idleS, heatS]).map fun pv =>
      ⟨sortNats (required ++ [power_pos]), pv⟩
  else
    (structValueByte cmdP.struct command_type_pos "change").bind fun chOp =>
    if command_type = chOp then
      (cmd.get? value_pos).bind fun target_temp =>
      let target_temp_pos := (assocLookup "targetTemp" sfp).getD 4
      (setAt pv target_temp_pos [byte_to_hex_str target_temp]).map fun pv =>
      ⟨sortNats (required ++ [target_temp_pos]), pv⟩
    else some ⟨sortNats required, pv⟩

/-- Light / LightBreaker branch of `generate_expected_state_packet`
(lines 660-670): the state `power` position is required with the single
symbolic on/off value matching the command's power byte (the off-code is
read from the command `structure` at the *state* power position, as the
code does). -/
def gespOnOff (cmdP stP : PacketSchema) (cfp sfp : List (String × Nat))
    (cmd : List Nat) (required : List Nat) (pv : List (List String)) :
    Option ExpectedStatePacket :=
  let power_pos := (assocLookup "power" sfp).getD 1
  (cmd.get? ((assocLookup "power" cfp).getD 2)).bind fun command_value =>
  (structValueByte cmdP.struct power_pos "off").bind fun offB =>
  (structValueStr stP.struct power_pos (if command_value = offB then "off" else "on")).bind
    fun sv =>
  (setAt pv power_pos [sv]).map fun pv =>
  ⟨sortNats (required ++ [power_pos]), pv⟩

/-- Fan branch of `generate_expected_state_packet` (lines 672-692): a
"power" opcode requires the state `power` position with the single on/off
value; a "setSpeed" opcode requires the state `speed` position, looked up by
`str(speed)` — the decimal text of the numeric speed byte. -/
def gespFan (cmdP stP : PacketSchema) (cfp sfp : List (String × Nat))
    (cmd : List Nat) (required : List Nat) (pv : List (List String)) :
    Option ExpectedStatePacket :=
  let command_type_pos := (assocLookup "commandType" cfp).getD 2
  (cmd.get? command_type_pos).bind fun command_type =>
  let power_pos := (assocLookup "power" sfp).getD 1
  (structValueByte cmdP.struct command_type_pos "power").bind fun powOp =>
  if command_type = powOp then
    (cmd.get? ((assocLookup "value" cfp).getD 3)).bind fun command_value =>
    (structValueByte cmdP.struct ((assocLookup "value" cfp).getD 3) "off").bind fun offB =>
    (structValueStr stP.struct power_pos (if command_value = offB then "off" else "on")).bind
      fun sv =>
    (setAt pv power_pos [sv]).map fun pv =>
    ⟨sortNats (required ++ [power_pos]), pv⟩
  else
    (structValueByte cmdP.struct command_type_pos "setSpeed").bind fun ssOp =>
    if command_type = ssOp then
      (cmd.get? ((assocLookup "value" cfp).getD 3)).bind fun speed =>
      let speed_pos := (assocLookup "speed" sfp).getD 4
      (structValueStr stP.struct speed_pos (Nat.repr speed)).bind fun sv =>
      (setAt pv speed_pos [sv]).map fun pv =>
      ⟨sortNats (required ++ [speed_pos]), pv⟩
    else some ⟨sortNats required, pv⟩

/-- `generate_expected_state_packet` (lines 578-707), the Expected-Response
Predictor: reject frames that are not 8 bytes; identify the device by the
command header (first match); always require position 0 (state header) and
the state `deviceId` position (value copied from the command's device-id
byte); then add the per-device causally-determined positions. Any raised
`KeyError` / `IndexError` is caught and yields `None`. -/
def generate_expected_state_packet (devs : DeviceStructure) (cmd : List Nat) :
    Option ExpectedStatePacket :=
  if cmd.length ≠ 8 then none else
  (cmd.get? 0).bind fun b0 =>
  (findDeviceByCommandHeader b0 devs).bind fun nd =>
  nd.2.state.bind fun stP =>
  nd.2.command.bind fun cmdP =>
  let cfp := fieldPositions cmdP.struct
  let sfp := fieldPositions stP.struct
  let device_id_pos := (assocLookup "deviceId" sfp).getD 2
  (cmd.get? ((assocLookup "deviceId" cfp).getD 1)).bind fun db =>
  (setAt (List.replicate 7 ([] : List String)) 0 [stP.header]).bind fun pv0 =>
  (setAt pv0 device_id_pos [byte_to_hex_str db]).bind fun pv =>
  let required := [0, device_id_pos]
  if nd.1 = "Thermo" then gespThermo cmdP stP cfp sfp cmd required pv
  else if nd.1 = "Light" ∨ nd.1 = "LightBreaker" then gespOnOff cmdP stP cfp sfp cmd required pv
  else if nd.1 = "Fan" then gespFan cmdP stP cfp sfp cmd required pv
  else some ⟨sortNats required, pv⟩

/-- Lift an `Option` (a raising dictionary / list / parse access) into the
exception monad of `process_elfin_data`'s outer `try` (line 929). -/
def toExc (o : Option α) : Except Unit α :=
  match o with
  | some a => .ok a
  | none => .error ()

/-- A decoded semantic device event, as dispatched by `process_elfin_data`
to the per-device `update_*` functions. -/
inductive DeviceEvent where
  | thermo (id : Nat) (mode action : String) (cur tgt : Nat)
  | light (id : Nat) (state : String)
  | lightBreaker (id : Nat) (state : String)
  | outlet (id : Nat) (power : String) (watt : Nat)
  | fan (id : Nat) (power speed : String)
  | ev (id : Nat) (power floor : String)
  deriving DecidableEq, Repr

/-- Thermostat temperature byte decode (lines 853-854):
`int(format(byte, '02x'))` — the byte's two lowercase hex digits re-read as
decimal; raises (`none`) when a digit is `a`-`f`. -/
def decodeTempByte (b : Nat) : Option Nat :=
  pyIntDec (formatHex02x b)

/-- Power text of the Light / LightBreaker / Outlet state decode
(lines 864-894): `"ON"` iff the power byte's hex equals the schema's
`on` value upper-cased (missing value compares against `""`). -/
def onOffText (pf : FieldDescriptor) (b : Nat) : String :=
  if byte_to_hex_str b = strUpper ((assocLookup "on" pf.values).getD "") then "ON" else "OFF"

/-- Thermostat branch of `process_elfin_data` (lines 849-862). -/
def decodeThermoState (stP : PacketSchema) (sfp : List (String × Nat))
    (data : List Nat) (device_id : Nat) : Except Unit DeviceEvent :=
  (toExc (data.get? ((assocLookup "power" sfp).getD 1))).bind fun power =>
  (toExc (data.get? ((assocLookup "currentTemp" sfp).getD 3))).bind fun cb =>
  (toExc (decodeTempByte cb)).bind fun current_temp =>
  (toExc (data.get? ((assocLookup "targetTemp" sfp).getD 4))).bind fun tb =>
  (toExc (decodeTempByte tb)).bind fun target_temp =>
  (toExc (assocLookup ((assocLookup "power" sfp).getD 1) stP.struct)).bind fun pf =>
  let power_off_hex := strUpper ((assocLookup "off" pf.values).getD "")
  let power_heating_hex := strUpper ((assocLookup "heating" pf.values).getD "")
  let power_hex := byte_to_hex_str power
  let mode_text := if power_hex = power_off_hex then "off" else "heat"
  let action_text := if power_hex = power_heating_hex then "heating" else "idle"
  .ok (.thermo device_id mode_text action_text current_temp target_temp)

/-- Light / LightBreaker / Outlet power read of `process_elfin_data`: the
power byte and its field descriptor at the state `power` position. -/
def readPowerField (stP : PacketSchema) (sfp : List (String × Nat))
    (data : List Nat) : Except Unit (FieldDescriptor × Nat) :=
  let power_pos := (assocLookup "power" sfp).getD 1
  (toExc (data.get? power_pos)).bind fun power =>
  (toExc (assocLookup power_pos stP.struct)).map fun pf =>
  (pf, power)

/-- Fan branch of `process_elfin_data` (lines 896-909): power is `"OFF"` iff
the byte matches the `off` value; speed is looked up by the byte's hex text,
defaulting to `"low"`. -/
def decodeFanState (stP : PacketSchema) (sfp : List (String × Nat))
    (data : List Nat) (device_id : Nat) : Except Unit DeviceEvent :=
  (readPowerField stP sfp data).bind fun pw =>
  let power_text :=
    if byte_to_hex_str pw.2 = strUpper ((assocLookup "off" pw.1.values).getD "")
    then "OFF" else "ON"
  let speed_pos := (assocLookup "speed" sfp).getD 3
  (toExc (data.get? speed_pos)).bind fun speed =>
  (toExc (assocLookup speed_pos stP.struct)).map fun sf =>
  let speed_text := (assocLookup (byte_to_hex_str speed) sf.values).getD "low"
  .fan device_id power_text speed_text

/-- Elevator branch of `process_elfin_data` (lines 911-923): floor is looked
up by the byte's hex text, defaulting to `"B"`. -/
def decodeEvState (stP : PacketSchema) (sfp : List (String × Nat))
    (data : List Nat) (device_id : Nat) : Except Unit DeviceEvent :=
  (readPowerField stP sfp data).bind fun pw =>
  let power_text := onOffText pw.1 pw.2
  let floor_pos := (assocLookup "floor" sfp).getD 3
  (toExc (data.get? floor_pos)).bind fun floor =>
  (toExc (assocLookup floor_pos stP.struct)).map fun ff =>
  let floor_text := (assocLookup (byte_to_hex_str floor) ff.values).getD "B"
  .ev device_id power_text floor_text

/-- Outlet branch of `process_elfin_data` (lines 884-894). -/
def decodeOutletState (stP : PacketSchema) (sfp : List (String × Nat))
    (data : List Nat) (device_id : Nat) : Except Unit DeviceEvent :=
  (readPowerField stP sfp data).bind fun pw =>
  let power_text := onOffText pw.1 pw.2
  let watt_pos := (assocLookup "watt" sfp).getD 5
  (toExc (data.get? watt_pos)).map fun watt =>
  .outlet device_id power_text watt

/-- Per-device dispatch of `process_elfin_data` (lines 849-923) once the
state header matched: decode the device-specific fields; an unknown device
name has no branch and produces no event (the loop still `break`s). -/
def decodeStateBranch (name : String) (stP : PacketSchema) (sfp : List (String × Nat))
    (data : List Nat) (device_id : Nat) : Except Unit (Option DeviceEvent) :=
  if name = "Thermo" then (decodeThermoState stP sfp data device_id).map some
  else if name = "Light" then
    (readPowerField stP sfp data).map fun pw => some (.light device_id (onOffText pw.1 pw.2))
  else if name = "LightBreaker" then
    (readPowerField stP sfp data).map fun pw =>
      some (.lightBreaker device_id (onOffText pw.1 pw.2))
  else if name = "Outlet" then (decodeOutletState stP sfp data device_id).map some
  else if name = "Fan" then (decodeFanState stP sfp data device_id).map some
  else if name = "EV" then (decodeEvState stP sfp data device_id).map some
  else .ok none

/-- Device scan of `process_elfin_data` (lines 843-925): walk
`DEVICE_STRUCTURE` in order, take the first device whose `state.header` byte
equals the frame's byte 0, read the device id at the `deviceId` state
position and decode; `Except.error` models an exception caught by the outer
handler (line 929), after which nothing is published. -/
def processElfinScan (data : List Nat) : DeviceStructure → Except Unit (Option DeviceEvent)
  | [] => .ok none
  | (name, d) :: rest =>
    (toExc d.state).bind fun stP =>
    let sfp := fieldPositions stP.struct
    (toExc (data.get? 0)).bind fun b0 =>
    (toExc (parseHex stP.header)).bind fun h =>
    if b0 = h then
      (toExc (assocLookup "deviceId" sfp)).bind fun device_id_pos =>
      (toExc (data.get? device_id_pos)).bind fun device_id =>
      decodeStateBranch name stP sfp data device_id
    else processElfinScan data rest

/-- One 16-hex-character chunk of `process_elfin_data` (lines 834-927): a
chunk is decoded only when it is checksum-valid (`data == checksum(data)`),
otherwise it is skipped with a log line. -/
def processElfinChunk (devs : DeviceStructure) (data : List Nat) :
    Except Unit (Option DeviceEvent) :=
  if data = checksum data then processElfinScan data devs else .ok none

/-- `STATE_TOPIC` (line 63): `HA_TOPIC + '/{device}/{state}/state'`. -/
def stateTopic (ha deviceID st : String) : String :=
  ha ++ "/" ++ deviceID ++ "/" ++ st ++ "/state"

/-- Python `'%.1f' % (int(watt) / 10)` (line 781) for a byte-sized watt
reading: one decimal place. -/
def wattText (w : Nat) : String :=
  Nat.repr (w / 10) ++ "." ++ Nat.repr (w % 10)

/-- The MQTT state messages `(topic, payload)` published for one decoded
event by `update_light`, `update_light_breaker`, `update_temperature`,
`update_fan`, `update_outlet` and `update_ev` (lines 710-799). Note
`update_outlet` (line 777) forms its device name from `idx + 1`, all other
device types use `idx` unchanged; `update_ev` publishes nothing when power
is not `"ON"`. -/
def eventMsgs (ha : String) : DeviceEvent → List (String × String)
  | .light idx onoff => [(stateTopic ha ("Light" ++ Nat.repr idx) "power", onoff)]
  | .lightBreaker idx onoff =>
    [(stateTopic ha ("LightBreaker" ++ Nat.repr idx) "power", onoff)]
  | .thermo idx mode action cur tgt =>
    [(stateTopic ha ("Thermo" ++ Nat.repr idx) "curTemp", pad cur),
     (stateTopic ha ("Thermo" ++ Nat.repr idx) "setTemp", pad tgt),
     (stateTopic ha ("Thermo" ++ Nat.repr idx) "power", mode),
     (stateTopic ha ("Thermo" ++ Nat.repr idx) "action", action)]
  | .fan idx power speed =>
    if power = "OFF" then [(stateTopic ha ("Fan" ++ Nat.repr idx) "power", "OFF")]
    else [(stateTopic ha ("Fan" ++ Nat.repr idx) "speed", speed),
          (stateTopic ha ("Fan" ++ Nat.repr idx) "power", "ON")]
  | .outlet idx power watt =>
    if power = "ON" then
      [(stateTopic ha ("Outlet" ++ Nat.repr (idx + 1)) "power", "ON"),
       (stateTopic ha ("Outlet" ++ Nat.repr (idx + 1)) "watt", wattText watt)]
    else [(stateTopic ha ("Outlet" ++ Nat.repr (idx + 1)) "power", "OFF")]
  | .ev idx power floor =>
    if power = "ON" then
      [(stateTopic ha ("EV" ++ Nat.repr idx) "power", "ON"),
       (stateTopic ha ("EV" ++ Nat.repr idx) "floor", floor)]
    else []

/-- State messages published for one inbound chunk: none when the chunk was
skipped (bad checksum, unknown header) or an exception was caught. -/
def chunkMsgs (ha : String) (devs : DeviceStructure) (data : List Nat) :
    List (String × String) :=
  match processElfinChunk devs data with
  | .ok (some e) => eventMsgs ha e
  | _ => []

/-- An entry of the dispatch queue (`QueueItem` `TypedDict`): the encoded
frame, the send count, the optional expected state and the number of
matching observations so far. -/
structure QueueItem where
  sendcmd : List Nat
  count : Nat
  expected_state : Option ExpectedStatePacket
  received_count : Nat
  deriving DecidableEq, Repr

/-- Light branch of `process_ha_command` (lines 955-957): write the on/off
command value at the command `power` position. -/
def haLightPacket (cmdP : PacketSchema) (packet : List Nat) (value : String) :
    Option (List Nat) :=
  (assocLookup "power" (fieldPositions cmdP.struct)).bind fun power_pos =>
  (assocLookup power_pos cmdP.struct).bind fun pf =>
  (assocLookup (if value = "ON" then "on" else "off") pf.values).bind fun pv =>
  (parseHex pv).bind fun pvb =>
  setByte packet power_pos pvb

/-- Thermostat branch of `process_ha_command` (lines 959-977): delegate to
`make_climate_command`; a `setTemp` outside the configured bounds returns
early with nothing queued; any other state leaves `packet_hex` as `None`
(the partial packet is then checksummed at line 994-996). -/
def haThermoPacketHex (devs : DeviceStructure) (device_id : Nat) (st value : String)
    (set_temp min_temp max_temp : Nat) : Except Unit (Option (List Nat)) :=
  if st = "power" then
    .ok (make_climate_command devs device_id 0
      (if value = "heat" then "commandON" else "commandOFF"))
  else if st = "setTemp" then
    if min_temp ≤ set_temp ∧ set_temp ≤ max_temp then
      .ok (make_climate_command devs device_id set_temp "commandCHANGE")
    else .error ()
  else .ok none

/-- `process_ha_command` (lines 933-1011): build the command frame for a
control-plane request, derive its expected state and return the `QueueItem`
appended to `QUEUE`; `none` models both a caught exception and the
no-expected-state early exit (line 1008), after which nothing is queued.
The Fan branch (lines 979-993) indexes the packet-schema dictionary itself
by a position string — `command[str(pos)]` instead of
`command["structure"][str(pos)]` — whose keys are only `header`,
`structure` and `fieldPositions`, so it always raises `KeyError`, modelled
as an unconditional failure. -/
def process_ha_command (devs : DeviceStructure) (device : String) (device_id : Nat)
    (st value : String) (set_temp min_temp max_temp : Nat) : Option QueueItem :=
  (assocLookup device devs).bind fun dstruct =>
  dstruct.command.bind fun cmdP =>
  (parseHex cmdP.header).bind fun hb =>
  (setByte (List.replicate 7 0) 0 hb).bind fun packet =>
  (assocLookup "deviceId" (fieldPositions cmdP.struct)).bind fun device_id_pos =>
  (setByte packet device_id_pos device_id).bind fun packet =>
  (if device = "Light" then (haLightPacket cmdP packet value).map fun p => (some (checksum p))
   else if device = "Thermo" then
     match haThermoPacketHex devs device_id st value set_temp min_temp max_temp with
     | .error _ => none
     | .ok ph => some (some ((ph.getD (checksum packet))))
   else if device = "Fan" then none
   else some (some (checksum packet))).bind fun packet_hex? =>
  packet_hex?.bind fun packet_hex =>
  (generate_expected_state_packet devs packet_hex).map fun expected_state =>
  ⟨packet_hex, 0, some expected_state, 0⟩

/-- Confirmation scan inner loop of `process_queue` (lines 1045-1064): a
received frame matches when at every required position the frame is long
enough, the position indexes the `possible_values` table (an `IndexError`
is caught as a non-match), and — when the value set is non-empty — the
byte's hex text is a member. -/
def matchLoop (pv : List (List String)) (received : List Nat) : List Nat → Bool
  | [] => true
  | pos :: rest =>
    if received.length ≤ pos then false
    else
      match pv.get? pos with
      | none => false
      | some vals =>
        if vals.isEmpty then matchLoop pv received rest
        else if vals.contains (byte_to_hex_str (received.getD pos 0)) then
          matchLoop pv received rest
        else false

/-- A received frame satisfies a `QueueItem`'s expected state. -/
def packetMatches (esp : ExpectedStatePacket) (received : List Nat) : Bool :=
  matchLoop esp.possible_values received esp.required_bytes

/-- Outcome of one `process_queue` tick for the popped head command. -/
inductive Outcome where
  | idle
  | sendFailed
  | confirmed
  | requeued
  | dropped
  deriving DecidableEq, Repr

/-- Environment of one `process_queue` tick: the current
`COLLECTDATA['recv_data']` set (written concurrently by the inbound path),
whether the publish of the frame raised a caught error (lines 1021-1027),
and the commands `process_ha_command` appends before the next tick. -/
structure TickInput where
  pool : List (List Nat)
  pubOk : Bool
  arrivals : List QueueItem
  deriving DecidableEq, Repr

/-- Result of one `process_queue` tick: the remaining queue, the head's
outcome and the frame published (if any). -/
structure TickResult where
  queue : List QueueItem
  outcome : Outcome
  sent : Option (List Nat)
  deriving DecidableEq, Repr

/-- One tick of `process_queue` (lines 1013-1085): pop the head; publish
(on a raised, caught send error the popped command is simply abandoned —
line 1027 returns without re-inserting); increment `count`; count the
matching frames of the received pool into `received_count`; complete when
the confirmation threshold `min_receive_count` is reached, else re-insert
at the front while `count < max_send_count`, else drop. A command without a
(well-formed) expected state is re-sent unconditionally up to the same
ceiling. -/
def process_queue (min_receive_count max_send_count : Nat) (inp : TickInput)
    (q : List QueueItem) : TickResult :=
  match q with
  | [] => ⟨[], .idle, none⟩
  | send_data :: rest =>
    if inp.pubOk = false then ⟨rest, .sendFailed, none⟩
    else
      let sd1 : QueueItem := { send_data with count := send_data.count + 1 }
      match sd1.expected_state with
      | some esp =>
        let m := inp.pool.countP fun r => packetMatches esp r
        let sd2 : QueueItem := { sd1 with received_count := sd1.received_count + m }
        if min_receive_count ≤ sd2.received_count then ⟨rest, .confirmed, some sd2.sendcmd⟩
        else if sd2.count < max_send_count then ⟨sd2 :: rest, .requeued, some sd2.sendcmd⟩
        else ⟨rest, .dropped, some sd2.sendcmd⟩
      | none =>
        if sd1.count < max_send_count then ⟨sd1 :: rest, .requeued, some sd1.sendcmd⟩
        else ⟨rest, .dropped, some sd1.sendcmd⟩

/-- Result of a run of `process_queue` ticks. -/
structure RunResult where
  queue : List QueueItem
  outcomes : List Outcome
  sent : List (Option (List Nat))
  deriving DecidableEq, Repr

/-- A run of `process_queue` ticks: after each tick the newly arrived
commands of the tick are appended to the back of the queue. -/
def runQueue (min_receive_count max_send_count : Nat) :
    List TickInput → List QueueItem → RunResult
  | [], q => ⟨q, [], []⟩
  | inp :: ins, q =>
    let r := process_queue min_receive_count max_send_count inp q
    let rr := runQueue min_receive_count max_send_count ins (r.queue ++ inp.arrivals)
    ⟨rr.queue, r.outcome :: rr.outcomes, r.sent :: rr.sent⟩

/-- Health-monitor step of `process_queue_and_monitor` (lines 1104-1113),
times in nanoseconds, threshold `T` the silence bound
(`elfin_reboot_interval` converted: `(now-last)/1e6 ms > interval*1000 ms`
⇔ `now - last > T` with `T = interval * 1e9` ns). On a crossing the
last-received timestamp is reset to `now` first, and recovery
(`reboot_elfin_device`) is invoked iff auto-reboot is enabled. Returns the
new timestamp and whether recovery was invoked. -/
def monitorTick (T : Nat) (auto : Bool) (now last_recv_time : Nat) : Nat × Bool :=
  if T < now - last_recv_time then (now, auto) else (last_recv_time, false)

/-- A run of health-monitor ticks at the given times, with no valid inbound
frame in between (only the monitor itself writes the timestamp). Returns
the final timestamp and the per-tick recovery flags. -/
def runMonitor (T : Nat) (auto : Bool) : List Nat → Nat → Nat × List Bool
  | [], last => (last, [])
  | now :: ts, last =>
    let r := monitorTick T auto now last
    let rr := runMonitor T auto ts r.1
    (rr.1, r.2 :: rr.2)

/-- Bounded-set insertion of `on_mqtt_message` (lines 240-242) and
`process_elfin_data` (lines 837-839): `set.add` (no duplicates) followed by
re-capping to the last 100 members when the cap is exceeded
(`set(list(s)[-100:])`). -/
def addCapped [DecidableEq α] (s : List α) (x : α) : List α :=
  let s1 := if x ∈ s then s else s ++ [x]
  if 100 < s1.length then s1.drop (s1.length - 100) else s1

/-- A commax-style thermostat command schema (concrete instance for
witnesses). -/
def thermoCommandSchema : PacketSchema :=
  ⟨"04", [(1, ⟨"deviceId", []⟩),
          (2, ⟨"commandType", [("power", "04"), ("change", "03")]⟩),
          (3, ⟨"value", [("on", "81"), ("off", "00")]⟩)]⟩

/-- A commax-style thermostat state schema (concrete instance for
witnesses). -/
def thermoStateSchema : PacketSchema :=
  ⟨"82", [(1, ⟨"power", [("off", "80"), ("idle", "81"), ("heating", "83")]⟩),
          (2, ⟨"deviceId", []⟩),
          (3, ⟨"currentTemp", []⟩),
          (4, ⟨"targetTemp", []⟩)]⟩

/-- A commax-style light command schema (concrete instance for witnesses);
the command `power` position coincides with the state `power` position, as
the predictor's off-code lookup (line 664) requires of a working schema. -/
def lightCommandSchema : PacketSchema :=
  ⟨"31", [(1, ⟨"power", [("on", "01"), ("off", "00")]⟩), (2, ⟨"deviceId", []⟩)]⟩

/-- A commax-style light state schema (concrete instance for witnesses). -/
def lightStateSchema : PacketSchema :=
  ⟨"B0", [(1, ⟨"power", [("on", "01"), ("off", "00")]⟩), (2, ⟨"deviceId", []⟩)]⟩

/-- A commax-style outlet command schema (concrete instance for witnesses). -/
def outletCommandSchema : PacketSchema :=
  ⟨"7A", [(1, ⟨"deviceId", []⟩), (2, ⟨"power", [("on", "01"), ("off", "00")]⟩)]⟩

/-- A commax-style outlet state schema (concrete instance for witnesses). -/
def outletStateSchema : PacketSchema :=
  ⟨"F9", [(1, ⟨"power", [("on", "A1"), ("off", "A0")]⟩), (2, ⟨"deviceId", []⟩),
          (5, ⟨"watt", []⟩)]⟩

/-- A commax-style fan command schema (concrete instance for witnesses). -/
def fanCommandSchema : PacketSchema :=
  ⟨"78", [(1, ⟨"deviceId", []⟩),
          (2, ⟨"commandType", [("power", "01"), ("setSpeed", "02")]⟩),
          (3, ⟨"value", [("on", "04"), ("off", "00"), ("low", "01"), ("medium", "02"),
                         ("high", "03")]⟩)]⟩

/-- A commax-style fan state schema (concrete instance for witnesses);
`speed` values map hex byte text to the symbolic speed name, as the decode
path reads them. -/
def fanStateSchema : PacketSchema :=
  ⟨"F6", [(1, ⟨"power", [("on", "04"), ("off", "00")]⟩), (2, ⟨"deviceId", []⟩),
          (3, ⟨"speed", [("01", "low"), ("02", "medium"), ("03", "high")]⟩)]⟩

/-- A concrete four-device `DEVICE_STRUCTURE` for witnesses and
counterexamples. -/
def demoDevs : DeviceStructure :=
  [("Thermo", ⟨"climate", some thermoCommandSchema, some thermoStateSchema⟩),
   ("Light", ⟨"light", some lightCommandSchema, some lightStateSchema⟩),
   ("Outlet", ⟨"switch", some outletCommandSchema, some outletStateSchema⟩),
   ("Fan", ⟨"fan", some fanCommandSchema, some fanStateSchema⟩)]

lemma addCapped_preserves [DecidableEq α] (s : List α) (x : α) (h : s.length ≤ 100)
    (hn : s.Nodup) : (addCapped s x).length ≤ 100 ∧ (addCapped s x).Nodup := by
  unfold addCapped
  by_cases hx : x ∈ s
  · simp only [if_pos hx]
    have hlen : ¬ 100 < s.length := by omega
    simp only [if_neg hlen]
    exact ⟨h, hn⟩
  · simp only [if_neg hx]
    have hn1 : (s ++ [x]).Nodup := by
      rw [List.nodup_append]
      exact ⟨hn, List.nodup_singleton x, by
        intro a ha hb
        simp only [List.mem_singleton] at hb
        subst hb
        exact hx ha⟩
    by_cases hc : 100 < (s ++ [x]).length
    · simp only [if_pos hc]
      constructor
      · rw [List.length_drop]
        omega
      · exact hn1.sublist (List.drop_sublist _ _)
    · simp only [if_neg hc]
      exact ⟨by omega, hn1⟩

lemma foldl_addCapped_bounded [DecidableEq α] (l : List α) :
    ∀ s : List α, s.length ≤ 100 → s.Nodup →
      (l.foldl addCapped s).length ≤ 100 ∧ (l.foldl addCapped s).Nodup := by
  induction l with
  | nil => intro s h hn; exact ⟨h, hn⟩
  | cons x xs ih =>
    intro s h hn
    have := addCapped_preserves s x h hn
    exact ih (addCapped s x) this.1 this.2

/-- C7: after any sequence of insertions into a `RecentFrames` set (the
`send_data` re-cap of `on_mqtt_message`, lines 240-242, and the `recv_data`
re-cap of `process_elfin_data`, lines 837-839, both modelled by
`addCapped`), the set holds at most 100 distinct hex frame strings and no
duplicates — the cap is re-established at the end of every insertion. -/
theorem recent_frames_capped (inserts : List String) :
    (inserts.foldl addCapped ([] : List String)).length ≤ 100 ∧
    (inserts.foldl addCapped ([] : List String)).Nodup :=
  foldl_addCapped_bounded inserts [] (by simp) List.nodup_nil

/-- C2 counterexample: a tick whose publish raises a caught error (modelled
by `pubOk = false`, the `except` of lines 1025-1027) leaves the queue empty
— the popped command is **not** re-inserted, contradicting the claim that
it remains queued for the retry mechanism. -/
theorem publish_failure_drop_counterexample :
    (process_queue 3 20 ⟨[], false, []⟩
        [⟨[49, 1, 2, 0, 0, 0, 0, 52], 0, none, 0⟩]).queue = [] ∧
    (process_queue 3 20 ⟨[], false, []⟩
        [⟨[49, 1, 2, 0, 0, 0, 0, 52], 0, none, 0⟩]).outcome = .sendFailed := by
  exact ⟨rfl, rfl⟩

/-- C2 (amended): when the publish of the head command's frame raises a
caught error on a tick, the command — already popped — is dropped and never
reattempted: the tick returns with the remainder of the queue, no frame
sent and the send counter untouched. -/
theorem publish_failure_drops_command (minR maxS : Nat) (inp : TickInput)
    (cmd : QueueItem) (rest : List QueueItem) (h : inp.pubOk = false) :
    process_queue minR maxS inp (cmd :: rest) = ⟨rest, .sendFailed, none⟩ := by
  unfold process_queue
  simp [h]

/-- Witness for `publish_failure_drops_command` at a concrete tick. -/
theorem publish_failure_drops_command_witness :
    process_queue 3 20 ⟨[[4, 5]], false, []⟩
        [⟨[4, 5, 4, 129, 0, 0, 0, 142], 2, none, 0⟩, ⟨[49], 0, none, 0⟩] =
      ⟨[⟨[49], 0, none, 0⟩], .sendFailed, none⟩ :=
  publish_failure_drops_command 3 20 ⟨[[4, 5]], false, []⟩
    ⟨[4, 5, 4, 129, 0, 0, 0, 142], 2, none, 0⟩ [⟨[49], 0, none, 0⟩] rfl

lemma runMonitor_quiet (T : Nat) (auto : Bool) (t : Nat) :
    ∀ ts : List Nat, (∀ u ∈ ts, u ≤ t + T) →
      runMonitor T auto ts t = (t, List.replicate ts.length false) := by
  intro ts
  induction ts with
  | nil => intro _; rfl
  | cons u us ih =>
    intro h
    have hu : u ≤ t + T := h u (List.mem_cons_self u us)
    have hstep : monitorTick T auto u t = (t, false) := by
      unfold monitorTick
      have : ¬ T < u - t := by omega
      simp [this]
    simp only [runMonitor, hstep]
    rw [ih fun v hv => h v (List.mem_cons_of_mem u hv)]
    rfl

/-- C6: when the silence threshold is crossed (`T < t - last`, the
nanosecond form of the millisecond comparison at line 1108), the monitor
tick at time `t` resets the last-received timestamp to `t` and invokes
recovery exactly once: every later tick within the next threshold window
(`u ≤ t + T`), with the silence still persisting, leaves the timestamp
alone and does not trigger again. -/
theorem watchdog_single_trigger (T last t : Nat) (ts : List Nat)
    (hcross : T < t - last) (hwindow : ∀ u ∈ ts, u ≤ t + T) :
    runMonitor T true (t :: ts) last = (t, true :: List.replicate ts.length false) := by
  have hstep : monitorTick T true t last = (t, true) := by
    unfold monitorTick
    simp [hcross]
  simp only [runMonitor, hstep]
  rw [runMonitor_quiet T true t ts hwindow]

/-- Witness for `watchdog_single_trigger`: threshold 5, silence crossed at
time 6, two further silent ticks inside the window trigger nothing. -/
theorem watchdog_single_trigger_witness :
    runMonitor 5 true [6, 8, 11] 0 = (6, [true, false, false]) :=
  watchdog_single_trigger 5 0 6 [8, 11] (by decide) (by decide)

/-- C9: `update_outlet` (line 777) forms the state-topic device name from
the decoded device-id byte **plus one** (`'Outlet' + str(idx + 1)`), while
every other device type (`update_light`, `update_light_breaker`,
`update_temperature`, `update_fan`, `update_ev`) uses the byte unchanged;
and `process_elfin_data` passes the raw `deviceId` byte to these updaters,
as the two concrete decodes show (outlet frame with device byte 3 publishes
under `Outlet4`, light frame with device byte 3 under `Light3`). -/
theorem outlet_index_offset (ha : String) (d w cur tgt : Nat)
    (p mode action speed floor : String) :
    eventMsgs ha (.outlet d "ON" w) =
      [(stateTopic ha ("Outlet" ++ Nat.repr (d + 1)) "power", "ON"),
       (stateTopic ha ("Outlet" ++ Nat.repr (d + 1)) "watt", wattText w)]
  ∧ eventMsgs ha (.outlet d "OFF" w) =
      [(stateTopic ha ("Outlet" ++ Nat.repr (d + 1)) "power", "OFF")]
  ∧ eventMsgs ha (.light d p) = [(stateTopic ha ("Light" ++ Nat.repr d) "power", p)]
  ∧ eventMsgs ha (.lightBreaker d p) =
      [(stateTopic ha ("LightBreaker" ++ Nat.repr d) "power", p)]
  ∧ eventMsgs ha (.thermo d mode action cur tgt) =
      [(stateTopic ha ("Thermo" ++ Nat.repr d) "curTemp", pad cur),
       (stateTopic ha ("Thermo" ++ Nat.repr d) "setTemp", pad tgt),
       (stateTopic ha ("Thermo" ++ Nat.repr d) "power", mode),
       (stateTopic ha ("Thermo" ++ Nat.repr d) "action", action)]
  ∧ eventMsgs ha (.fan d "OFF" speed) =
      [(stateTopic ha ("Fan" ++ Nat.repr d) "power", "OFF")]
  ∧ eventMsgs ha (.fan d "ON" speed) =
      [(stateTopic ha ("Fan" ++ Nat.repr d) "speed", speed),
       (stateTopic ha ("Fan" ++ Nat.repr d) "power", "ON")]
  ∧ eventMsgs ha (.ev d "ON" floor) =
      [(stateTopic ha ("EV" ++ Nat.repr d) "power", "ON"),
       (stateTopic ha ("EV" ++ Nat.repr d) "floor", floor)]
  ∧ processElfinChunk demoDevs [0xF9, 0xA1, 3, 0, 0, 50, 0, 207] =
      .ok (some (.outlet 3 "ON" 50))
  ∧ processElfinChunk demoDevs [0xB0, 1, 3, 0, 0, 0, 0, 0xB4] =
      .ok (some (.light 3 "ON"))
  ∧ chunkMsgs "homeassistant" demoDevs [0xF9, 0xA1, 3, 0, 0, 50, 0, 207] =
      [("homeassistant/Outlet4/power/state", "ON"),
       ("homeassistant/Outlet4/watt/state", "5.0")]
  ∧ chunkMsgs "homeassistant" demoDevs [0xB0, 1, 3, 0, 0, 0, 0, 0xB4] =
      [("homeassistant/Light3/power/state", "ON")] := by
  refine ⟨rfl, rfl, rfl, rfl, rfl, rfl, rfl, rfl, rfl, rfl, by decide, by decide⟩

/-- C1 counterexample: with the default confirmation threshold 3, a single
distinct matching frame that merely stays in the received set across three
ticks confirms the command — `received_count` re-counts the same stored
frame on every tick (lines 1037-1070) — so "fewer than 3 distinct matching
frames are ever received ⇒ never confirmed" fails: exactly one distinct
matching frame exists in the whole run, yet tick 3 completes the command
as confirmed. -/
theorem confirm_recount_counterexample :
    (runQueue 3 20
        (List.replicate 3 ⟨[[0xB0, 1, 2, 0, 0, 0, 0, 179]], true, []⟩)
        [⟨[49, 1, 2, 0, 0, 0, 0, 52], 0,
          some ⟨[0, 1, 2], [["B0"], ["01"], ["02"], [], [], [], []]⟩, 0⟩]).outcomes =
      [.requeued, .requeued, .confirmed]
  ∧ ([[0xB0, 1, 2, 0, 0, 0, 0, 179]] : List (List Nat)).countP
      (fun r => packetMatches ⟨[0, 1, 2], [["B0"], ["01"], ["02"], [], [], [], []]⟩ r) = 1 := by
  decide

lemma process_queue_pubFail (minR maxS : Nat) (inp : TickInput) (cmd : QueueItem)
    (rest : List QueueItem) (h : inp.pubOk = false) :
    process_queue minR maxS inp (cmd :: rest) = ⟨rest, .sendFailed, none⟩ := by
  unfold process_queue
  simp [h]

lemma process_queue_noMatch (minR maxS : Nat) (inp : TickInput) (esp : ExpectedStatePacket)
    (cmdF : List Nat) (c : Nat) (rest : List QueueItem) (hminR : 1 ≤ minR)
    (hpub : inp.pubOk = true) (hpool : ∀ f ∈ inp.pool, packetMatches esp f = false) :
    process_queue minR maxS inp (⟨cmdF, c, some esp, 0⟩ :: rest) =
      if c + 1 < maxS then ⟨⟨cmdF, c + 1, some esp, 0⟩ :: rest, .requeued, some cmdF⟩
      else ⟨rest, .dropped, some cmdF⟩ := by
  have hcount : inp.pool.countP (fun r => packetMatches esp r) = 0 := by
    rw [List.countP_eq_zero]
    intro f hf
    simp [hpool f hf]
  have hnc : ¬ minR ≤ 0 + 0 := by omega
  unfold process_queue
  simp only [hpub, hcount]
  simp [hnc]

lemma runQueue_nil_idle (minR maxS : Nat) :
    ∀ inputs : List TickInput, (∀ inp ∈ inputs, inp.arrivals = []) →
      (runQueue minR maxS inputs []).outcomes = List.replicate inputs.length .idle := by
  intro inputs
  induction inputs with
  | nil => intro _; rfl
  | cons inp ins ih =>
    intro h
    have harr : inp.arrivals = [] := h inp (List.mem_cons_self inp ins)
    simp only [runQueue, process_queue, harr, List.nil_append, List.length_cons]
    rw [ih fun i hi => h i (List.mem_cons_of_mem inp hi)]
    rfl

/-- C1 (amended): a Command is completed as confirmed only once its
accumulated `received_count` reaches the threshold, where every tick adds
one count per distinct **currently stored** matching frame — the same
stored frame is re-counted on later ticks, so fewer distinct frames than
the threshold can confirm (see the counterexample); what does hold is that
a Command whose expectation is matched by no received frame at any tick is
never completed as confirmed. -/
theorem no_matching_frame_never_confirmed (minR maxS : Nat) (hminR : 1 ≤ minR)
    (esp : ExpectedStatePacket) (cmdF : List Nat) (c : Nat) (inputs : List TickInput)
    (hpool : ∀ inp ∈ inputs, (∀ f ∈ inp.pool, packetMatches esp f = false) ∧
      inp.arrivals = []) :
    Outcome.confirmed ∉ (runQueue minR maxS inputs [⟨cmdF, c, some esp, 0⟩]).outcomes := by
  induction inputs generalizing c with
  | nil => simp [runQueue]
  | cons inp ins ih =>
    have hinp := hpool inp (List.mem_cons_self inp ins)
    have hins : ∀ i ∈ ins, (∀ f ∈ i.pool, packetMatches esp f = false) ∧ i.arrivals = [] :=
      fun i hi => hpool i (List.mem_cons_of_mem inp hi)
    by_cases hpub : inp.pubOk = true
    · rw [runQueue]
      rw [process_queue_noMatch minR maxS inp esp cmdF c [] hminR hpub hinp.1]
      by_cases hlt : c + 1 < maxS
      · simp only [if_pos hlt, hinp.2, List.cons_append, List.nil_append]
        intro hmem
        rcases List.mem_cons.mp hmem with h | h
        · exact Outcome.noConfusion h
        · exact ih (c + 1) hins (by simpa using h)
      · simp only [if_neg hlt, hinp.2, List.nil_append]
        intro hmem
        rcases List.mem_cons.mp hmem with h | h
        · exact Outcome.noConfusion h
        · rw [runQueue_nil_idle minR maxS ins fun i hi => (hins i hi).2] at h
          rcases List.eq_of_mem_replicate h with h'
          exact Outcome.noConfusion h'
    · have hpub' : inp.pubOk = false := by
        cases h : inp.pubOk
        · rfl
        · exact absurd h hpub
      rw [runQueue]
      rw [process_queue_pubFail minR maxS inp _ [] hpub']
      simp only [hinp.2, List.nil_append]
      intro hmem
      rcases List.mem_cons.mp hmem with h | h
      · exact Outcome.noConfusion h
      · rw [runQueue_nil_idle minR maxS ins fun i hi => (hins i hi).2] at h
        rcases List.eq_of_mem_replicate h with h'
        exact Outcome.noConfusion h'

/-- Witness for `no_matching_frame_never_confirmed` on a concrete two-tick
run with empty received pools. -/
theorem no_matching_frame_never_confirmed_witness :
    Outcome.confirmed ∉
      (runQueue 3 20 [⟨[], true, []⟩, ⟨[], true, []⟩]
        [⟨[49, 1, 2, 0, 0, 0, 0, 52], 0,
          some ⟨[0, 1, 2], [["B0"], ["01"], ["02"], [], [], [], []]⟩, 0⟩]).outcomes :=
  no_matching_frame_never_confirmed 3 20 (by decide)
    ⟨[0, 1, 2], [["B0"], ["01"], ["02"], [], [], [], []]⟩
    [49, 1, 2, 0, 0, 0, 0, 52] 0 [⟨[], true, []⟩, ⟨[], true, []⟩] (by decide)

lemma runQueue_run_requeue (minR maxS : Nat) (hminR : 1 ≤ minR) (esp : ExpectedStatePacket)
    (cmdF : List Nat) :
    ∀ (inputs : List TickInput) (c : Nat) (rest : List QueueItem),
      c + inputs.length < maxS →
      (∀ inp ∈ inputs, inp.pubOk = true ∧ ∀ f ∈ inp.pool, packetMatches esp f = false) →
      runQueue minR maxS inputs (⟨cmdF, c, some esp, 0⟩ :: rest) =
        ⟨⟨cmdF, c + inputs.length, some esp, 0⟩ ::
            (rest ++ (inputs.map TickInput.arrivals).flatten),
         List.replicate inputs.length .requeued,
         List.replicate inputs.length (some cmdF)⟩ := by
  intro inputs
  induction inputs with
  | nil =>
    intro c rest _ _
    simp [runQueue]
  | cons inp ins ih =>
    intro c rest hlt hgood
    have hinp := hgood inp (List.mem_cons_self inp ins)
    have hins : ∀ i ∈ ins, i.pubOk = true ∧ ∀ f ∈ i.pool, packetMatches esp f = false :=
      fun i hi => hgood i (List.mem_cons_of_mem inp hi)
    have hlt1 : c + 1 < maxS := by simp only [List.length_cons] at hlt; omega
    rw [runQueue, process_queue_noMatch minR maxS inp esp cmdF c rest hminR hinp.1 hinp.2,
      if_pos hlt1]
    simp only [List.cons_append]
    rw [ih (c + 1) (rest ++ inp.arrivals) (by simp only [List.length_cons] at hlt; omega) hins]
    have hc : c + 1 + ins.length = c + (ins.length + 1) := by omega
    simp [hc, List.replicate_succ]

lemma runQueue_run_drop (minR maxS : Nat) (hminR : 1 ≤ minR) (esp : ExpectedStatePacket)
    (cmdF : List Nat) :
    ∀ (inputs : List TickInput) (c : Nat) (rest : List QueueItem),
      inputs ≠ [] → c + inputs.length = maxS →
      (∀ inp ∈ inputs, inp.pubOk = true ∧ ∀ f ∈ inp.pool, packetMatches esp f = false) →
      runQueue minR maxS inputs (⟨cmdF, c, some esp, 0⟩ :: rest) =
        ⟨rest ++ (inputs.map TickInput.arrivals).flatten,
         List.replicate (inputs.length - 1) .requeued ++ [.dropped],
         List.replicate inputs.length (some cmdF)⟩ := by
  intro inputs
  induction inputs with
  | nil => intro c rest hne _ _; exact absurd rfl hne
  | cons inp ins ih =>
    intro c rest _ hsum hgood
    have hinp := hgood inp (List.mem_cons_self inp ins)
    have hins : ∀ i ∈ ins, i.pubOk = true ∧ ∀ f ∈ i.pool, packetMatches esp f = false :=
      fun i hi => hgood i (List.mem_cons_of_mem inp hi)
    cases ins with
    | nil =>
      have hc : ¬ c + 1 < maxS := by simp only [List.length_cons, List.length_nil] at hsum; omega
      rw [runQueue, process_queue_noMatch minR maxS inp esp cmdF c rest hminR hinp.1 hinp.2,
        if_neg hc]
      simp [runQueue]
    | cons i2 ins' =>
      have hlt1 : c + 1 < maxS := by simp only [List.length_cons] at hsum; omega
      rw [runQueue, process_queue_noMatch minR maxS inp esp cmdF c rest hminR hinp.1 hinp.2,
        if_pos hlt1]
      simp only [List.cons_append]
      rw [ih (c + 1) (rest ++ inp.arrivals) (by simp) (by simp only [List.length_cons] at hsum ⊢; omega) hins]
      simp [List.replicate_succ]

/-- C4: a Command whose ExpectedState no received frame ever satisfies is
sent on every one of `max_send_count` (default 20, line 1015) consecutive
ticks and then dropped: the run emits `ceiling - 1` front re-queues followed
by one drop, publishes the frame exactly `ceiling` times, and the final
queue holds only the pre-existing tail and the newly arrived commands;
moreover after each of the first `ceiling - 1` ticks the command sits at
the **front** of the queue (`QUEUE.insert(0, ...)`, line 1075), ahead of
every newly arrived command. -/
theorem retry_budget_exact (minR maxS : Nat) (hminR : 1 ≤ minR) (hmaxS : 1 ≤ maxS)
    (esp : ExpectedStatePacket) (cmdF : List Nat) (rest : List QueueItem)
    (inputs : List TickInput) (hlen : inputs.length = maxS)
    (hgood : ∀ inp ∈ inputs, inp.pubOk = true ∧ ∀ f ∈ inp.pool, packetMatches esp f = false) :
    runQueue minR maxS inputs (⟨cmdF, 0, some esp, 0⟩ :: rest) =
      ⟨rest ++ (inputs.map TickInput.arrivals).flatten,
       List.replicate (maxS - 1) .requeued ++ [.dropped],
       List.replicate maxS (some cmdF)⟩
  ∧ ∀ k, k < maxS →
      ((runQueue minR maxS (inputs.take k) (⟨cmdF, 0, some esp, 0⟩ :: rest)).queue).head? =
        some ⟨cmdF, k, some esp, 0⟩ := by
  constructor
  · have hne : inputs ≠ [] := by
      intro h
      rw [h] at hlen
      simp at hlen
      omega
    have := runQueue_run_drop minR maxS hminR esp cmdF inputs 0 rest hne (by omega) hgood
    rw [this, hlen]
  · intro k hk
    have hklen : (inputs.take k).length = k := by
      rw [List.length_take]
      omega
    have hgood' : ∀ inp ∈ inputs.take k, inp.pubOk = true ∧
        ∀ f ∈ inp.pool, packetMatches esp f = false :=
      fun inp hi => hgood inp (List.take_subset k inputs hi)
    rw [runQueue_run_requeue minR maxS hminR esp cmdF (inputs.take k) 0 rest
      (by omega) hgood']
    simp [hklen]

/-- Witness for `retry_budget_exact` (first conjunct) at ceiling 2: two
sends, one front re-queue, then the drop. -/
theorem retry_budget_exact_witness :
    runQueue 3 2 [⟨[], true, []⟩, ⟨[], true, []⟩]
        [⟨[4, 5, 4, 129, 0, 0, 0, 142], 0, some ⟨[0], [["FF"]]⟩, 0⟩] =
      ⟨[], List.replicate 1 .requeued ++ [.dropped],
       List.replicate 2 (some [4, 5, 4, 129, 0, 0, 0, 142])⟩ :=
  (retry_budget_exact 3 2 (by decide) (by decide) ⟨[0], [["FF"]]⟩
    [4, 5, 4, 129, 0, 0, 0, 142] [] [⟨[], true, []⟩, ⟨[], true, []⟩] rfl
    (by decide)).1

lemma assocLookup_append_some [DecidableEq κ] (k : κ) (l1 l2 : List (κ × α)) (v : α)
    (h : assocLookup k l1 = some v) : assocLookup k (l1 ++ l2) = some v := by
  induction l1 with
  | nil => simp [assocLookup] at h
  | cons kv l1' ih =>
    rw [List.cons_append]
    rw [assocLookup] at h ⊢
    by_cases hk : kv.1 = k
    · simpa [hk] using h
    · rw [if_neg hk] at h ⊢
      exact ih h

lemma assocLookup_append_none [DecidableEq κ] (k : κ) (l1 l2 : List (κ × α))
    (h : assocLookup k l1 = none) : assocLookup k (l1 ++ l2) = assocLookup k l2 := by
  induction l1 with
  | nil => simp
  | cons kv l1' ih =>
    rw [assocLookup] at h
    by_cases hk : kv.1 = k
    · rw [if_pos hk] at h
      exact absurd h (by simp)
    · rw [if_neg hk] at h
      rw [List.cons_append, assocLookup, if_neg hk]
      exact ih h

lemma bfpGo_preserves (k : String) (v : Nat) :
    ∀ (xs : List (Nat × FieldDescriptor)) (acc : List (String × Nat))
      (errs : List (String × Nat × Nat)), assocLookup k acc = some v →
      assocLookup k (buildFieldPositionsGo acc errs xs).1 = some v := by
  intro xs
  induction xs with
  | nil => intro acc errs h; exact h
  | cons pf xs' ih =>
    intro acc errs h
    rw [buildFieldPositionsGo]
    by_cases hemp : pf.2.name = "empty"
    · rw [if_pos hemp]
      exact ih acc errs h
    · rw [if_neg hemp]
      cases hl : assocLookup pf.2.name acc with
      | some p0 => exact ih acc _ h
      | none => exact ih _ errs (assocLookup_append_some k acc [(pf.2.name, pf.1)] v h)

lemma bfpGo_errs_mono :
    ∀ (xs : List (Nat × FieldDescriptor)) (acc : List (String × Nat))
      (errs : List (String × Nat × Nat)),
      ∃ t, (buildFieldPositionsGo acc errs xs).2 = errs ++ t := by
  intro xs
  induction xs with
  | nil => intro acc errs; exact ⟨[], by simp [buildFieldPositionsGo]⟩
  | cons pf xs' ih =>
    intro acc errs
    rw [buildFieldPositionsGo]
    by_cases hemp : pf.2.name = "empty"
    · rw [if_pos hemp]; exact ih acc errs
    · rw [if_neg hemp]
      cases hl : assocLookup pf.2.name acc with
      | some p0 =>
        obtain ⟨t, ht⟩ := ih acc (errs ++ [(pf.2.name, p0, pf.1)])
        exact ⟨(pf.2.name, p0, pf.1) :: t, by rw [ht]; simp⟩
      | none => exact ih _ errs

lemma bfpGo_unseen (k : String) :
    ∀ (xs : List (Nat × FieldDescriptor)) (acc : List (String × Nat))
      (errs : List (String × Nat × Nat)),
      (∀ pf ∈ xs, (pf.2).name ≠ k) → assocLookup k acc = none →
      assocLookup k (buildFieldPositionsGo acc errs xs).1 = none := by
  intro xs
  induction xs with
  | nil => intro acc errs _ h; exact h
  | cons pf xs' ih =>
    intro acc errs hne h
    have hpf : pf.2.name ≠ k := hne pf (List.mem_cons_self pf xs')
    have hxs' : ∀ q ∈ xs', (q.2).name ≠ k := fun q hq => hne q (List.mem_cons_of_mem pf hq)
    rw [buildFieldPositionsGo]
    by_cases hemp : pf.2.name = "empty"
    · rw [if_pos hemp]; exact ih acc errs hxs' h
    · rw [if_neg hemp]
      cases hl : assocLookup pf.2.name acc with
      | some p0 => exact ih acc _ hxs' h
      | none =>
        refine ih _ errs hxs' ?_
        rw [assocLookup_append_none k acc _ h, assocLookup, if_neg hpf]
        rfl

lemma bfpGo_all_names :
    ∀ (xs : List (Nat × FieldDescriptor)) (acc : List (String × Nat))
      (errs : List (String × Nat × Nat)) (p : Nat) (f : FieldDescriptor),
      (p, f) ∈ xs → f.name ≠ "empty" →
      (assocLookup f.name (buildFieldPositionsGo acc errs xs).1).isSome := by
  intro xs
  induction xs with
  | nil => intro acc errs p f h; exact absurd h (by simp)
  | cons pf xs' ih =>
    intro acc errs p f hmem hne
    rw [buildFieldPositionsGo]
    rcases List.mem_cons.mp hmem with heq | htail
    · have hname : pf.2.name = f.name := by rw [← heq]
      rw [hname, if_neg hne]
      cases hl : assocLookup f.name acc with
      | some p0 => rw [bfpGo_preserves f.name p0 xs' acc _ hl]; rfl
      | none =>
        have hsome : assocLookup f.name (acc ++ [(f.name, pf.1)]) = some pf.1 := by
          rw [assocLookup_append_none f.name acc _ hl, assocLookup, if_pos rfl]
        rw [bfpGo_preserves f.name pf.1 xs' _ errs hsome]
        rfl
    · by_cases hemp : pf.2.name = "empty"
      · rw [if_pos hemp]; exact ih acc errs p f htail hne
      · rw [if_neg hemp]
        cases hl : assocLookup pf.2.name acc with
        | some p0 => exact ih acc _ p f htail hne
        | none => exact ih _ errs p f htail hne

lemma bfpGo_append (xs : List (Nat × FieldDescriptor)) :
    ∀ (ys : List (Nat × FieldDescriptor)) (acc : List (String × Nat))
      (errs : List (String × Nat × Nat)),
      buildFieldPositionsGo acc errs (xs ++ ys) =
        buildFieldPositionsGo (buildFieldPositionsGo acc errs xs).1
          (buildFieldPositionsGo acc errs xs).2 ys := by
  induction xs with
  | nil => intro ys acc errs; rfl
  | cons pf xs' ih =>
    intro ys acc errs
    rw [List.cons_append, buildFieldPositionsGo, buildFieldPositionsGo]
    by_cases hemp : pf.2.name = "empty"
    · rw [if_pos hemp, if_pos hemp, ih]
    · rw [if_neg hemp, if_neg hemp]
      cases hl : assocLookup pf.2.name acc with
      | some p0 => dsimp only; exact ih ys acc (errs ++ [(pf.2.name, p0, pf.1)])
      | none => dsimp only; exact ih ys (acc ++ [(pf.2.name, pf.1)]) errs

/-- C8: when a `structure` table carries the same non-"empty" field name at
an earlier position `p1` and a later position `p2`, the Schema Compiler
keeps the first-seen mapping `name → p1`, records exactly the logged error
naming both positions, and still produces a position for every other
non-"empty" field of the table — the collision is non-fatal
(lines 114-125). -/
theorem duplicate_field_name_first_seen
    (l1 l2 l3 : List (Nat × FieldDescriptor)) (p1 p2 : Nat) (f1 f2 : FieldDescriptor)
    (hname : f2.name = f1.name) (hne : f1.name ≠ "empty")
    (hfirst : ∀ pf ∈ l1, (pf.2).name ≠ f1.name) :
    assocLookup f1.name (fieldPositions (l1 ++ (p1, f1) :: l2 ++ (p2, f2) :: l3)) = some p1
  ∧ (f1.name, p1, p2) ∈ (buildFieldPositions (l1 ++ (p1, f1) :: l2 ++ (p2, f2) :: l3)).2
  ∧ ∀ pf ∈ l1 ++ (p1, f1) :: l2 ++ (p2, f2) :: l3, (pf.2).name ≠ "empty" →
      (assocLookup (pf.2).name
        (fieldPositions (l1 ++ (p1, f1) :: l2 ++ (p2, f2) :: l3))).isSome := by
  have hne2 : ¬ f2.name = "empty" := fun h => hne (hname ▸ h)
  have h_a1 : assocLookup f1.name (buildFieldPositionsGo [] [] l1).1 = none :=
    bfpGo_unseen f1.name l1 [] [] hfirst rfl
  have h_k : assocLookup f1.name
      ((buildFieldPositionsGo [] [] l1).1 ++ [(f1.name, p1)]) = some p1 := by
    rw [assocLookup_append_none _ _ _ h_a1, assocLookup, if_pos rfl]
  have hstep1 : buildFieldPositionsGo [] [] (l1 ++ (p1, f1) :: l2 ++ (p2, f2) :: l3) =
      buildFieldPositionsGo ((buildFieldPositionsGo [] [] l1).1 ++ [(f1.name, p1)])
        (buildFieldPositionsGo [] [] l1).2 (l2 ++ (p2, f2) :: l3) := by
    rw [List.append_assoc, List.cons_append, bfpGo_append l1, buildFieldPositionsGo]
    rw [if_neg hne, h_a1]
  have h_a2 : assocLookup f1.name
      (buildFieldPositionsGo ((buildFieldPositionsGo [] [] l1).1 ++ [(f1.name, p1)])
        (buildFieldPositionsGo [] [] l1).2 l2).1 = some p1 :=
    bfpGo_preserves f1.name p1 l2 _ _ h_k
  have hstep2 : buildFieldPositionsGo [] [] (l1 ++ (p1, f1) :: l2 ++ (p2, f2) :: l3) =
      buildFieldPositionsGo
        (buildFieldPositionsGo ((buildFieldPositionsGo [] [] l1).1 ++ [(f1.name, p1)])
          (buildFieldPositionsGo [] [] l1).2 l2).1
        ((buildFieldPositionsGo ((buildFieldPositionsGo [] [] l1).1 ++ [(f1.name, p1)])
          (buildFieldPositionsGo [] [] l1).2 l2).2 ++ [(f1.name, p1, p2)]) l3 := by
    rw [hstep1, bfpGo_append l2, buildFieldPositionsGo]
    rw [if_neg hne2, hname, h_a2]
  refine ⟨?_, ?_, ?_⟩
  · unfold fieldPositions buildFieldPositions
    rw [hstep2]
    exact bfpGo_preserves f1.name p1 l3 _ _ h_a2
  · unfold buildFieldPositions
    rw [hstep2]
    obtain ⟨t, ht⟩ := bfpGo_errs_mono l3
      (buildFieldPositionsGo ((buildFieldPositionsGo [] [] l1).1 ++ [(f1.name, p1)])
        (buildFieldPositionsGo [] [] l1).2 l2).1
      ((buildFieldPositionsGo ((buildFieldPositionsGo [] [] l1).1 ++ [(f1.name, p1)])
        (buildFieldPositionsGo [] [] l1).2 l2).2 ++ [(f1.name, p1, p2)])
    rw [ht]
    simp
  · intro pf hmem hnemp
    exact bfpGo_all_names _ [] [] pf.1 pf.2 (by simpa using hmem) hnemp

/-- Witness for `duplicate_field_name_first_seen`: `power` occurs at
positions 1 and 2; the compiler maps `power` to 1, logs the collision and
still maps `watt`. -/
theorem duplicate_field_name_first_seen_witness :
    assocLookup "power" (fieldPositions
        [(0, ⟨"deviceId", []⟩), (1, ⟨"power", []⟩), (2, ⟨"power", []⟩),
         (3, ⟨"watt", []⟩)]) = some 1
  ∧ ("power", 1, 2) ∈ (buildFieldPositions
        [(0, ⟨"deviceId", []⟩), (1, ⟨"power", []⟩), (2, ⟨"power", []⟩),
         (3, ⟨"watt", []⟩)]).2 :=
  ⟨(duplicate_field_name_first_seen [(0, ⟨"deviceId", []⟩)] [] [(3, ⟨"watt", []⟩)]
      1 2 ⟨"power", []⟩ ⟨"power", []⟩ rfl (by decide) (by decide)).1,
   (duplicate_field_name_first_seen [(0, ⟨"deviceId", []⟩)] [] [(3, ⟨"watt", []⟩)]
      1 2 ⟨"power", []⟩ ⟨"power", []⟩ rfl (by decide) (by decide)).2.1⟩

lemma decDigitVal_hexDigitCharLower : ∀ n, n < 16 →
    decDigitVal (hexDigitCharLower n) = if n ≤ 9 then some n else none := by
  decide

lemma decodeTempByte_eq (b : Nat) (hb : b < 256) :
    decodeTempByte b =
      if b / 16 ≤ 9 ∧ b % 16 ≤ 9 then some (10 * (b / 16) + b % 16) else none := by
  have h1 : b / 16 < 16 := by omega
  have h2 : b % 16 < 16 := Nat.mod_lt _ (by omega)
  have e1 := decDigitVal_hexDigitCharLower (b / 16) h1
  have e2 := decDigitVal_hexDigitCharLower (b % 16) h2
  unfold decodeTempByte formatHex02x pyIntDec
  simp only [Nat.mod_eq_of_lt h1]
  dsimp only [List.foldl]
  by_cases h9a : b / 16 ≤ 9
  · by_cases h9b : b % 16 ≤ 9
    · simp [e1, e2, h9a, h9b, Option.bind, Option.map]
    · simp [e1, e2, h9a, h9b, Option.bind, Option.map]
  · simp [e1, h9a, Option.bind, Option.map]

/-- C10: thermostat temperature decoding is partial over checksum-valid
state frames: a temperature byte decodes (lines 853-854,
`int(format(byte,'02x'))`) exactly when both hex digits of the byte are
decimal digits, yielding `10*high + low`; a frame whose current- or
target-temperature byte carries a hex digit `A`-`F` raises instead, the
exception is caught by the handler at line 929, and no state event is
published for that frame. -/
theorem thermo_temp_decode_exact
    (thermo : DeviceSchema) (restDevs : DeviceStructure) (stP : PacketSchema)
    (f : List Nat) (hb dp did pp pb ctPos cb ttPos tb : Nat) (pF : FieldDescriptor)
    (hstate : thermo.state = some stP)
    (hheader : parseHex stP.header = some hb)
    (hvalid : f = checksum f)
    (hb0 : f.get? 0 = some hb)
    (hdpL : assocLookup "deviceId" (fieldPositions stP.struct) = some dp)
    (hdid : f.get? dp = some did)
    (hppL : assocLookup "power" (fieldPositions stP.struct) = some pp)
    (hpb : f.get? pp = some pb)
    (hctL : assocLookup "currentTemp" (fieldPositions stP.struct) = some ctPos)
    (hcb : f.get? ctPos = some cb)
    (httL : assocLookup "targetTemp" (fieldPositions stP.struct) = some ttPos)
    (htb : f.get? ttPos = some tb)
    (hpf : assocLookup pp stP.struct = some pF)
    (hcb256 : cb < 256) (htb256 : tb < 256) :
    (∀ b, b < 256 → decodeTempByte b =
        if b / 16 ≤ 9 ∧ b % 16 ≤ 9 then some (10 * (b / 16) + b % 16) else none)
  ∧ ((cb / 16 ≤ 9 ∧ cb % 16 ≤ 9) → (tb / 16 ≤ 9 ∧ tb % 16 ≤ 9) →
      processElfinChunk (("Thermo", thermo) :: restDevs) f =
        .ok (some (.thermo did
          (if byte_to_hex_str pb = strUpper ((assocLookup "off" pF.values).getD "")
            then "off" else "heat")
          (if byte_to_hex_str pb = strUpper ((assocLookup "heating" pF.values).getD "")
            then "heating" else "idle")
          (10 * (cb / 16) + cb % 16) (10 * (tb / 16) + tb % 16))))
  ∧ ((10 ≤ cb / 16 ∨ 10 ≤ cb % 16) ∨
       ((cb / 16 ≤ 9 ∧ cb % 16 ≤ 9) ∧ (10 ≤ tb / 16 ∨ 10 ≤ tb % 16)) →
      processElfinChunk (("Thermo", thermo) :: restDevs) f = .error () ∧
      ∀ ha, chunkMsgs ha (("Thermo", thermo) :: restDevs) f = []) := by
  refine ⟨fun b h => decodeTempByte_eq b h, ?_, ?_⟩
  · intro hcv htv
    rw [processElfinChunk, if_pos hvalid, processElfinScan, hstate]
    simp only [toExc, Except.bind, hb0, hheader, if_true, hdpL, hdid, decodeStateBranch,
      decodeThermoState, hppL, Option.getD_some, hpb, hcb, hctL, httL, htb, hpf,
      decodeTempByte_eq cb hcb256, decodeTempByte_eq tb htb256, hcv.1, hcv.2, htv.1, htv.2,
      and_self, Except.map]
  · intro hbad
    have herr : processElfinChunk (("Thermo", thermo) :: restDevs) f = .error () := by
      rw [processElfinChunk, if_pos hvalid, processElfinScan, hstate]
      rcases hbad with hc | ⟨hcv, ht⟩
      · have hnone : decodeTempByte cb = none := by
          rw [decodeTempByte_eq cb hcb256, if_neg]
          omega
        simp only [toExc, Except.bind, hb0, hheader, if_true, hdpL, hdid, decodeStateBranch,
          decodeThermoState, hppL, Option.getD_some, hpb, hcb, hctL, hnone, Except.map]
      · have hnone : decodeTempByte tb = none := by
          rw [decodeTempByte_eq tb htb256, if_neg]
          omega
        simp only [toExc, Except.bind, hb0, hheader, if_true, hdpL, hdid, decodeStateBranch,
          decodeThermoState, hppL, Option.getD_some, hpb, hcb, hctL, httL, htb,
          decodeTempByte_eq cb hcb256, hcv.1, hcv.2, and_self, if_true, hnone, Except.map]
    refine ⟨herr, fun ha => ?_⟩
    rw [chunkMsgs, herr]

/-- Witness for `thermo_temp_decode_exact`: the checksum-valid thermostat
frame `82 81 03 24 1A 00 00 68` carries target-temperature byte `1A`
(low hex digit `A`), so decoding raises and nothing is published. -/
theorem thermo_temp_decode_exact_witness :
    processElfinChunk demoDevs [0x82, 0x81, 3, 0x24, 0x1A, 0, 0, 68] = .error () ∧
    chunkMsgs "homeassistant" demoDevs [0x82, 0x81, 3, 0x24, 0x1A, 0, 0, 68] = [] := by
  have h := (thermo_temp_decode_exact
    ⟨"climate", some thermoCommandSchema, some thermoStateSchema⟩
    [("Light", ⟨"light", some lightCommandSchema, some lightStateSchema⟩),
     ("Outlet", ⟨"switch", some outletCommandSchema, some outletStateSchema⟩),
     ("Fan", ⟨"fan", some fanCommandSchema, some fanStateSchema⟩)]
    thermoStateSchema [0x82, 0x81, 3, 0x24, 0x1A, 0, 0, 68]
    130 2 3 1 129 3 36 4 26 ⟨"power", [("off", "80"), ("idle", "81"), ("heating", "83")]⟩
    rfl (by decide) (by decide) (by decide) (by decide) (by decide) (by decide) (by decide)
    (by decide) (by decide) (by decide) (by decide) (by decide) (by decide) (by decide)).2.2
    (Or.inr ⟨by decide, by decide⟩)
  exact ⟨h.1, h.2 "homeassistant"⟩

lemma get?_set_self (l : List α) (i : Nat) (a : α) (h : i < l.length) :
    (l.set i a).get? i = some a := by
  rw [List.get?_set_eq]
  cases hl : l.get? i with
  | none =>
    have := List.get?_eq_none.mp hl
    omega
  | some b => simp

lemma mem_insertNat (x : Nat) : ∀ (l : List Nat) (y : Nat),
    y ∈ insertNat x l ↔ y = x ∨ y ∈ l := by
  intro l
  induction l with
  | nil => intro y; simp [insertNat]
  | cons z zs ih =>
    intro y
    rw [insertNat]
    by_cases hle : x ≤ z
    · simp [hle, List.mem_cons]
    · simp only [if_neg hle, List.mem_cons, ih y]
      tauto

lemma mem_sortNats (l : List Nat) (y : Nat) : y ∈ sortNats l ↔ y ∈ l := by
  unfold sortNats
  induction l with
  | nil => simp
  | cons z zs ih =>
    simp only [List.foldr_cons, mem_insertNat, List.mem_cons, ih]

lemma climate_packet_get (hb device_id v2 v3 : Nat) (dpC ctp vp : Nat)
    (hdpC : dpC < 7) (hctp : ctp < 7) (hvp : vp < 7)
    (hdpC0 : dpC ≠ 0) (hctp0 : ctp ≠ 0) (hvp0 : vp ≠ 0)
    (hdc : dpC ≠ ctp) (hdv : dpC ≠ vp) (hcv : ctp ≠ vp) :
    (checksum (((((List.replicate 7 (0 : Nat)).set 0 hb).set dpC device_id).set ctp v2).set
      vp v3)).length = 8 ∧
    (checksum (((((List.replicate 7 (0 : Nat)).set 0 hb).set dpC device_id).set ctp v2).set
      vp v3)).get? 0 = some hb ∧
    (checksum (((((List.replicate 7 (0 : Nat)).set 0 hb).set dpC device_id).set ctp v2).set
      vp v3)).get? dpC = some device_id ∧
    (checksum (((((List.replicate 7 (0 : Nat)).set 0 hb).set dpC device_id).set ctp v2).set
      vp v3)).get? ctp = some v2 ∧
    (checksum (((((List.replicate 7 (0 : Nat)).set 0 hb).set dpC device_id).set ctp v2).set
      vp v3)).get? vp = some v3 := by
  have hpkt7 : (((((List.replicate 7 (0 : Nat)).set 0 hb).set dpC device_id).set ctp v2).set
      vp v3).length = 7 := by
    simp [List.length_set]
  have hck : checksum (((((List.replicate 7 (0 : Nat)).set 0 hb).set dpC device_id).set
        ctp v2).set vp v3) =
      (((((List.replicate 7 (0 : Nat)).set 0 hb).set dpC device_id).set ctp v2).set vp v3) ++
        [(((((List.replicate 7 (0 : Nat)).set 0 hb).set dpC device_id).set ctp v2).set
          vp v3).sum % 256] := by
    rw [checksum, List.take_of_length_le (by simp [List.length_set])]
  refine ⟨by rw [hck]; simp [hpkt7], ?_, ?_, ?_, ?_⟩
  · rw [hck, List.get?_append (by omega)]
    rw [List.get?_set_ne _ _ hvp0, List.get?_set_ne _ _ hctp0, List.get?_set_ne _ _ hdpC0,
      get?_set_self _ _ _ (by simp)]
  · rw [hck, List.get?_append (by omega)]
    rw [List.get?_set_ne _ _ (Ne.symm hdv), List.get?_set_ne _ _ (Ne.symm hdc),
      get?_set_self _ _ _ (by simp [hdpC])]
  · rw [hck, List.get?_append (by omega)]
    rw [List.get?_set_ne _ _ (Ne.symm hcv), get?_set_self _ _ _ (by simp [hctp])]
  · rw [hck, List.get?_append (by omega)]
    exact get?_set_self _ _ _ (by simp [hvp])

lemma make_climate_eval (devs : DeviceStructure) (thermo : DeviceSchema)
    (cmdP : PacketSchema) (dpC ctp vp hb device_id t : Nat)
    (mode : String) (opB valB : Nat)
    (h1 : assocLookup "Thermo" devs = some thermo)
    (h2 : thermo.command = some cmdP)
    (h4 : parseHex cmdP.header = some hb)
    (h5 : assocLookup "deviceId" (fieldPositions cmdP.struct) = some dpC)
    (h6 : assocLookup "commandType" (fieldPositions cmdP.struct) = some ctp)
    (h7 : assocLookup "value" (fieldPositions cmdP.struct) = some vp)
    (hop : climateOpcodeAndValue cmdP.struct ctp vp t mode = some (opB, valB))
    (hbb : hb < 256) (hid : device_id < 256) (hopB : opB < 256) (hvalB : valB < 256)
    (hdpC : dpC < 7) (hctp : ctp < 7) (hvp : vp < 7) :
    make_climate_command devs device_id t mode =
      some (checksum (((((List.replicate 7 0).set 0 hb).set dpC device_id).set ctp opB).set
        vp valB)) := by
  unfold make_climate_command
  rw [h1, Option.some_bind, h2, Option.some_bind, h4, Option.some_bind]
  rw [show setByte (List.replicate 7 0) 0 hb = some ((List.replicate 7 0).set 0 hb) by
    simp [setByte, setAt, hbb]]
  rw [Option.some_bind, h5, Option.some_bind]
  rw [show setByte ((List.replicate 7 0).set 0 hb) dpC device_id =
      some (((List.replicate 7 0).set 0 hb).set dpC device_id) by
    simp [setByte, setAt, List.length_set, hid, hdpC]]
  rw [Option.some_bind, h6, Option.some_bind, h7, Option.some_bind, hop, Option.some_bind]
  rw [show setByte (((List.replicate 7 0).set 0 hb).set dpC device_id) ctp opB =
      some ((((List.replicate 7 0).set 0 hb).set dpC device_id).set ctp opB) by
    simp [setByte, setAt, List.length_set, hopB, hctp]]
  rw [Option.some_bind]
  rw [show setByte ((((List.replicate 7 0).set 0 hb).set dpC device_id).set ctp opB) vp valB =
      some (((((List.replicate 7 0).set 0 hb).set dpC device_id).set ctp opB).set vp valB) by
    simp [setByte, setAt, List.length_set, hvalB, hvp]]
  rfl

lemma gesp_thermo_power_frame (devs : DeviceStructure) (thermo : DeviceSchema)
    (cmdP stP : PacketSchema) (dpC ctp vp dpS pp hb bPow bOff device_id : Nat)
    (offS idleS heatS : String) (F : List Nat) (cv : Nat)
    (h2 : thermo.command = some cmdP)
    (h3 : thermo.state = some stP)
    (h5 : assocLookup "deviceId" (fieldPositions cmdP.struct) = some dpC)
    (h6 : assocLookup "commandType" (fieldPositions cmdP.struct) = some ctp)
    (h8 : structValueByte cmdP.struct ctp "power" = some bPow)
    (h10 : structValueByte cmdP.struct vp "off" = some bOff)
    (h7 : assocLookup "value" (fieldPositions cmdP.struct) = some vp)
    (h11 : assocLookup "deviceId" (fieldPositions stP.struct) = some dpS)
    (h12 : assocLookup "power" (fieldPositions stP.struct) = some pp)
    (h13 : structValueStr stP.struct pp "off" = some offS)
    (h14 : structValueStr stP.struct pp "idle" = some idleS)
    (h15 : structValueStr stP.struct pp "heating" = some heatS)
    (h16 : findDeviceByCommandHeader hb devs = some ("Thermo", thermo))
    (hlen8 : F.length = 8) (hF0 : F.get? 0 = some hb)
    (hFd : F.get? dpC = some device_id) (hFc : F.get? ctp = some bPow)
    (hFv : F.get? vp = some cv)
    (hdpS : dpS < 7) (hpp : pp < 7) :
    generate_expected_state_packet devs F =
      some ⟨sortNats ([0, dpS] ++ [pp]),
        (((List.replicate 7 ([] : List String)).set 0 [stP.header]).set dpS
          [byte_to_hex_str device_id]).set pp
          (if cv = bOff then [offS] else [idleS, heatS])⟩ := by
  unfold generate_expected_state_packet
  rw [if_neg (by simp [hlen8])]
  rw [hF0, Option.some_bind, h16, Option.some_bind]
  show (thermo.state.bind fun stP' => _) = _
  rw [h3, Option.some_bind, h2, Option.some_bind]
  simp only [h11, h5, Option.getD_some, hFd, Option.some_bind]
  rw [show setAt (List.replicate 7 ([] : List String)) 0 [stP.header] =
      some ((List.replicate 7 ([] : List String)).set 0 [stP.header]) by
    simp [setAt]]
  rw [Option.some_bind]
  rw [show setAt ((List.replicate 7 ([] : List String)).set 0 [stP.header]) dpS
        [byte_to_hex_str device_id] =
      some (((List.replicate 7 ([] : List String)).set 0 [stP.header]).set dpS
        [byte_to_hex_str device_id]) by
    simp [setAt, List.length_set, hdpS]]
  rw [Option.some_bind]
  simp only [if_true]
  unfold gespThermo
  simp only [h6, h7, h12, Option.getD_some, hFc, Option.some_bind, h8, if_pos rfl, hFv, h10]
  by_cases hcvOff : cv = bOff
  · rw [if_pos hcvOff]
    simp only [h13, Option.some_bind]
    rw [show setAt (((List.replicate 7 ([] : List String)).set 0 [stP.header]).set dpS
          [byte_to_hex_str device_id]) pp [offS] =
        some ((((List.replicate 7 ([] : List String)).set 0 [stP.header]).set dpS
          [byte_to_hex_str device_id]).set pp [offS]) by
      simp [setAt, List.length_set, hpp]]
    simp [hcvOff]
  · rw [if_neg hcvOff]
    simp only [h14, h15, Option.some_bind]
    rw [show setAt (((List.replicate 7 ([] : List String)).set 0 [stP.header]).set dpS
          [byte_to_hex_str device_id]) pp [idleS, heatS] =
        some ((((List.replicate 7 ([] : List String)).set 0 [stP.header]).set dpS
          [byte_to_hex_str device_id]).set pp [idleS, heatS]) by
      simp [setAt, List.length_set, hpp]]
    simp [hcvOff]

lemma pv_gets (hdr : List String) (A B : List String) (dpS pp : Nat)
    (hdpS : dpS < 7) (hpp : pp < 7) (hdpS0 : dpS ≠ 0) (hpp0 : pp ≠ 0) (hppdpS : pp ≠ dpS) :
    ((((List.replicate 7 ([] : List String)).set 0 hdr).set dpS A).set pp B).get? 0 =
      some hdr ∧
    ((((List.replicate 7 ([] : List String)).set 0 hdr).set dpS A).set pp B).get? dpS =
      some A ∧
    ((((List.replicate 7 ([] : List String)).set 0 hdr).set dpS A).set pp B).get? pp =
      some B := by
  refine ⟨?_, ?_, ?_⟩
  · rw [List.get?_set_ne _ _ hpp0, List.get?_set_ne _ _ hdpS0,
      get?_set_self _ _ _ (by simp)]
  · rw [List.get?_set_ne _ _ hppdpS, get?_set_self _ _ _ (by simp [hdpS])]
  · exact get?_set_self _ _ _ (by simp [hpp])

/-- C5: for a thermostat power command frame built by `make_climate_command`
the Expected-Response Predictor requires position 0 with the device's state
header, the state `deviceId` position with the hex of the command's
device-id byte, and the state `power` position — with acceptable values
exactly `[idle, heating]` for a power-on command and exactly `[off]` for a
power-off command (lines 620-648). -/
theorem thermo_power_expected_state
    (devs : DeviceStructure) (thermo : DeviceSchema) (cmdP stP : PacketSchema)
    (dpC ctp vp dpS pp hb bPow bOn bOff device_id t : Nat)
    (offS idleS heatS : String)
    (h1 : assocLookup "Thermo" devs = some thermo)
    (h2 : thermo.command = some cmdP)
    (h3 : thermo.state = some stP)
    (h4 : parseHex cmdP.header = some hb)
    (h5 : assocLookup "deviceId" (fieldPositions cmdP.struct) = some dpC)
    (h6 : assocLookup "commandType" (fieldPositions cmdP.struct) = some ctp)
    (h7 : assocLookup "value" (fieldPositions cmdP.struct) = some vp)
    (h8 : structValueByte cmdP.struct ctp "power" = some bPow)
    (h9 : structValueByte cmdP.struct vp "on" = some bOn)
    (h10 : structValueByte cmdP.struct vp "off" = some bOff)
    (h11 : assocLookup "deviceId" (fieldPositions stP.struct) = some dpS)
    (h12 : assocLookup "power" (fieldPositions stP.struct) = some pp)
    (h13 : structValueStr stP.struct pp "off" = some offS)
    (h14 : structValueStr stP.struct pp "idle" = some idleS)
    (h15 : structValueStr stP.struct pp "heating" = some heatS)
    (h16 : findDeviceByCommandHeader hb devs = some ("Thermo", thermo))
    (hbb : hb < 256) (hid : device_id < 256) (hbPow : bPow < 256)
    (hbOn : bOn < 256) (hbOff : bOff < 256)
    (hdpC : dpC < 7) (hctp : ctp < 7) (hvp : vp < 7) (hdpS : dpS < 7) (hpp : pp < 7)
    (hdpC0 : dpC ≠ 0) (hctp0 : ctp ≠ 0) (hvp0 : vp ≠ 0)
    (hdc : dpC ≠ ctp) (hdv : dpC ≠ vp) (hcv : ctp ≠ vp)
    (hdpS0 : dpS ≠ 0) (hpp0 : pp ≠ 0) (hppdpS : pp ≠ dpS)
    (hOnOff : bOn ≠ bOff) :
    (∃ fOn, make_climate_command devs device_id t "commandON" = some fOn ∧
      ∃ esp, generate_expected_state_packet devs fOn = some esp ∧
        0 ∈ esp.required_bytes ∧ dpS ∈ esp.required_bytes ∧ pp ∈ esp.required_bytes ∧
        esp.possible_values.get? 0 = some [stP.header] ∧
        esp.possible_values.get? dpS = some [byte_to_hex_str device_id] ∧
        esp.possible_values.get? pp = some [idleS, heatS])
  ∧ (∃ fOff, make_climate_command devs device_id t "commandOFF" = some fOff ∧
      ∃ esp, generate_expected_state_packet devs fOff = some esp ∧
        0 ∈ esp.required_bytes ∧ dpS ∈ esp.required_bytes ∧ pp ∈ esp.required_bytes ∧
        esp.possible_values.get? 0 = some [stP.header] ∧
        esp.possible_values.get? dpS = some [byte_to_hex_str device_id] ∧
        esp.possible_values.get? pp = some [offS]) := by
  have hmemr : ∀ x ∈ [0, dpS, pp], x ∈ sortNats ([0, dpS] ++ [pp]) := by
    intro x hx
    rw [mem_sortNats]
    simpa using hx
  constructor
  · have hopOn : climateOpcodeAndValue cmdP.struct ctp vp t "commandON" = some (bPow, bOn) := by
      unfold climateOpcodeAndValue
      rw [if_neg (by decide), if_pos rfl, h8, Option.some_bind, h9, Option.map_some']
    have hmkOn := make_climate_eval devs thermo cmdP dpC ctp vp hb device_id t
      "commandON" bPow bOn h1 h2 h4 h5 h6 h7 hopOn hbb hid hbPow hbOn hdpC hctp hvp
    obtain ⟨hl8, h0, hd, hc, hv⟩ := climate_packet_get hb device_id bPow bOn dpC ctp vp
      hdpC hctp hvp hdpC0 hctp0 hvp0 hdc hdv hcv
    have hgespOn := gesp_thermo_power_frame devs thermo cmdP stP dpC ctp vp dpS pp hb
      bPow bOff device_id offS idleS heatS
      (checksum (((((List.replicate 7 0).set 0 hb).set dpC device_id).set ctp bPow).set
        vp bOn)) bOn
      h2 h3 h5 h6 h8 h10 h7 h11 h12 h13 h14 h15 h16 hl8 h0 hd hc hv hdpS hpp
    rw [if_neg hOnOff] at hgespOn
    obtain ⟨hpv0, hpvd, hpvp⟩ := pv_gets [stP.header] [byte_to_hex_str device_id]
      [idleS, heatS] dpS pp hdpS hpp hdpS0 hpp0 hppdpS
    exact ⟨_, hmkOn, _, hgespOn,
      hmemr 0 (by simp), hmemr dpS (by simp), hmemr pp (by simp), hpv0, hpvd, hpvp⟩
  · have hopOff : climateOpcodeAndValue cmdP.struct ctp vp t "commandOFF" =
        some (bPow, bOff) := by
      unfold climateOpcodeAndValue
      rw [if_pos rfl, h8, Option.some_bind, h10, Option.map_some']
    have hmkOff := make_climate_eval devs thermo cmdP dpC ctp vp hb device_id t
      "commandOFF" bPow bOff h1 h2 h4 h5 h6 h7 hopOff hbb hid hbPow hbOff hdpC hctp hvp
    obtain ⟨hl8, h0, hd, hc, hv⟩ := climate_packet_get hb device_id bPow bOff dpC ctp vp
      hdpC hctp hvp hdpC0 hctp0 hvp0 hdc hdv hcv
    have hgespOff := gesp_thermo_power_frame devs thermo cmdP stP dpC ctp vp dpS pp hb
      bPow bOff device_id offS idleS heatS
      (checksum (((((List.replicate 7 0).set 0 hb).set dpC device_id).set ctp bPow).set
        vp bOff)) bOff
      h2 h3 h5 h6 h8 h10 h7 h11 h12 h13 h14 h15 h16 hl8 h0 hd hc hv hdpS hpp
    rw [if_pos rfl] at hgespOff
    obtain ⟨hpv0, hpvd, hpvp⟩ := pv_gets [stP.header] [byte_to_hex_str device_id]
      [offS] dpS pp hdpS hpp hdpS0 hpp0 hppdpS
    exact ⟨_, hmkOff, _, hgespOff,
      hmemr 0 (by simp), hmemr dpS (by simp), hmemr pp (by simp), hpv0, hpvd, hpvp⟩

/-- Witness for `thermo_power_expected_state` on the concrete commax-style
thermostat schema, device 5. -/
theorem thermo_power_expected_state_witness :
    (∃ fOn, make_climate_command demoDevs 5 0 "commandON" = some fOn ∧
      ∃ esp, generate_expected_state_packet demoDevs fOn = some esp ∧
        0 ∈ esp.required_bytes ∧ 2 ∈ esp.required_bytes ∧ 1 ∈ esp.required_bytes ∧
        esp.possible_values.get? 0 = some [thermoStateSchema.header] ∧
        esp.possible_values.get? 2 = some [byte_to_hex_str 5] ∧
        esp.possible_values.get? 1 = some ["81", "83"])
  ∧ (∃ fOff, make_climate_command demoDevs 5 0 "commandOFF" = some fOff ∧
      ∃ esp, generate_expected_state_packet demoDevs fOff = some esp ∧
        0 ∈ esp.required_bytes ∧ 2 ∈ esp.required_bytes ∧ 1 ∈ esp.required_bytes ∧
        esp.possible_values.get? 0 = some [thermoStateSchema.header] ∧
        esp.possible_values.get? 2 = some [byte_to_hex_str 5] ∧
        esp.possible_values.get? 1 = some ["80"]) :=
  thermo_power_expected_state demoDevs
    ⟨"climate", some thermoCommandSchema, some thermoStateSchema⟩
    thermoCommandSchema thermoStateSchema 1 2 3 2 1 4 4 129 0 5 0 "80" "81" "83"
    (by decide) rfl rfl (by decide) (by decide) (by decide) (by decide) (by decide)
    (by decide) (by decide) (by decide) (by decide) (by decide) (by decide) (by decide)
    (by decide) (by decide) (by decide) (by decide) (by decide) (by decide) (by decide)
    (by decide) (by decide) (by decide) (by decide) (by decide) (by decide) (by decide)
    (by decide) (by decide) (by decide) (by decide) (by decide) (by decide) (by decide)

/-- C3 evidence on the concrete commax-style schema. Power and
temperature-on-change do round-trip: a Light ON/OFF command encodes, its
predicted state accepts exactly the state frame that decodes back to the
commanded power; a thermostat `commandCHANGE 24` writes the
decimal-as-hex byte `0x24` (= 36) which the state decoder reads back as 24.
Fan speed does **not**: the Fan branch of `process_ha_command`
(lines 979-993) indexes the packet-schema dictionary itself by a position
string (`command[str(pos)]` instead of `command["structure"][str(pos)]`),
so every Fan command raises `KeyError`, nothing is ever encoded or queued,
and no fan-speed frame exists to round-trip — the claim's fan-speed part
fails on the code while the spec (§8) clearly intends it. -/
theorem codec_roundtrip_evidence :
    make_climate_command demoDevs 5 24 "commandCHANGE" = some [4, 5, 3, 36, 0, 0, 0, 48]
  ∧ decAsHex 24 = 36 ∧ decodeTempByte 36 = some 24
  ∧ decAsHex 18 = 24 ∧ decodeTempByte 24 = some 18
  ∧ generate_expected_state_packet demoDevs [4, 5, 3, 36, 0, 0, 0, 48] =
      some ⟨[0, 2, 4], [["82"], [], ["05"], [], ["24"], [], []]⟩
  ∧ packetMatches ⟨[0, 2, 4], [["82"], [], ["05"], [], ["24"], [], []]⟩
      [0x82, 0x81, 5, 0x20, 0x24, 0, 0, 76] = true
  ∧ processElfinChunk demoDevs [0x82, 0x81, 5, 0x20, 0x24, 0, 0, 76] =
      .ok (some (.thermo 5 "heat" "idle" 20 24))
  ∧ process_ha_command demoDevs "Light" 2 "power" "ON" 0 5 40 =
      some ⟨[49, 1, 2, 0, 0, 0, 0, 52], 0,
        some ⟨[0, 1, 2], [["B0"], ["01"], ["02"], [], [], [], []]⟩, 0⟩
  ∧ packetMatches ⟨[0, 1, 2], [["B0"], ["01"], ["02"], [], [], [], []]⟩
      [0xB0, 1, 2, 0, 0, 0, 0, 179] = true
  ∧ processElfinChunk demoDevs [0xB0, 1, 2, 0, 0, 0, 0, 179] = .ok (some (.light 2 "ON"))
  ∧ process_ha_command demoDevs "Light" 2 "power" "OFF" 0 5 40 =
      some ⟨[49, 0, 2, 0, 0, 0, 0, 51], 0,
        some ⟨[0, 1, 2], [["B0"], ["00"], ["02"], [], [], [], []]⟩, 0⟩
  ∧ packetMatches ⟨[0, 1, 2], [["B0"], ["00"], ["02"], [], [], [], []]⟩
      [0xB0, 0, 2, 0, 0, 0, 0, 178] = true
  ∧ processElfinChunk demoDevs [0xB0, 0, 2, 0, 0, 0, 0, 178] = .ok (some (.light 2 "OFF"))
  ∧ process_ha_command demoDevs "Fan" 1 "speed" "low" 0 5 40 = none
  ∧ process_ha_command demoDevs "Fan" 1 "power" "ON" 0 5 40 = none := by
  refine ⟨by decide, by decide, by decide, by decide, by decide, by decide, by decide,
    rfl, by decide, by decide, rfl, by decide, by decide, rfl, by decide, by decide⟩
